import Mathlib

/-!
# Bookstore REST API (go-echo and go-fiber variants)

A shallow embedding of the two handler sets of the repository,
`src/go-echo/main.go` and `src/go-fiber/main.go`, over a model of the `books`
table they share.

* The table is a list of rows in rowid order together with the AUTOINCREMENT
  counter (`sqlite_sequence`).  `published_year` is a nullable column.
* A path parameter is a `String`.  The handlers hand it to the engine as a
  bound TEXT value compared against the INTEGER PRIMARY KEY; how the engine
  coerces that text to a rowid is the parameter `key` of every definition that
  needs it (`key id = some n` : the text `id` selects the row with rowid `n`).
* `dbErr` is the error the driver returns from `db.Query`, `db.Exec` or
  `QueryRow(...).Scan` for the statement of the request (`none` : the
  statement was served).  A failed statement changes nothing.  `cut` is the
  number of rows after which `rows.Next()` of a served `db.Query` reports
  false because of an error (`none` : the result set is delivered whole); the
  list handlers do not read `rows.Err()`.
* A handler takes the outcome of its own binder (`c.Bind`, `c.BodyParser`) as
  an `Option Book`.  The two binders are framework code; their outcomes on
  the request bodies they are compared on are `Echo.Bind` and
  `Fiber.BodyParser`, and `Echo.serve`, `Fiber.serve` answer one HTTP request.
* A response is a status code and an optional JSON value; every handler also
  reports the statements it sent to the engine.
* Go `int` and SQLite `INTEGER` are both 64-bit, so the conversions between
  them are the identity; they are modelled by `Int`.  Rowids are not bounded:
  the refusal of an INSERT once rowid 2^63 - 1 has been used is one of the
  errors `dbErr` stands for.
-/

namespace Bookstore

/-! ## JSON values and the Book record -/

/-- JSON values, as far as the responses need them. -/
inductive Json where
  | null
  | num (n : Int)
  | str (s : String)
  | arr (items : List Json)
  | obj (fields : List (String × Json))

/-- The Go struct `Book` (same fields in both variants). -/
structure Book where
  ID : Int
  Title : String
  Author : String
  PublishedYear : Int
  deriving DecidableEq, Repr

/-- Encoding of `map[string]string{"error": msg}` and `fiber.Map{"error": msg}`. -/
def errorJson (msg : String) : Json :=
  .obj [("error", .str msg)]

/-- Member lookup in a JSON object (first occurrence). -/
def Json.member (k : String) : List (String × Json) → Option Json
  | [] => none
  | (k', v) :: rest => if k' = k then some v else Json.member k rest

/-- An integer member of an object: absent reads as zero, a non-number is an error. -/
def Json.intMember (k : String) (fields : List (String × Json)) : Option Int :=
  match Json.member k fields with
  | none => some 0
  | some (.num n) => some n
  | some _ => none

/-- A text member of an object: absent reads as the empty string, a non-string is an error. -/
def Json.strMember (k : String) (fields : List (String × Json)) : Option String :=
  match Json.member k fields with
  | none => some ""
  | some (.str s) => some s
  | some _ => none

/-- The Book a JSON object denotes under the tags `id`, `title`, `author`,
`published_year` (what a client decoding the response into the record gets). -/
def readBook : Json → Option Book
  | .obj fields =>
    match Json.intMember "id" fields, Json.strMember "title" fields,
          Json.strMember "author" fields, Json.intMember "published_year" fields with
    | some i, some t, some a, some y => some ⟨i, t, a, y⟩
    | _, _, _, _ => none
  | _ => none

/-- Reads every item of a list of JSON values as a Book. -/
def readItems : List Json → Option (List Book)
  | [] => some []
  | j :: js =>
    match readBook j, readItems js with
    | some b, some bs => some (b :: bs)
    | _, _ => none

/-- The sequence of Books a JSON value denotes: an array of Book objects. No
other JSON value denotes a sequence. -/
def readBooks : Json → Option (List Book)
  | .arr items => readItems items
  | _ => none

/-! ## The store -/

/-- One row of the table `books`. `published_year INTEGER` may hold NULL. -/
structure Row where
  id : Int
  title : String
  author : String
  published_year : Option Int
  deriving DecidableEq, Repr

/-- The table `books` in rowid order and the AUTOINCREMENT counter. -/
structure Store where
  rows : List Row
  seq : Int
  deriving DecidableEq, Repr

/-- The store right after `CREATE TABLE IF NOT EXISTS books` on a fresh database. -/
def Store.empty : Store := ⟨[], 0⟩

/-- Primary-key constraint in rowid order: ids strictly increase along the table. -/
def Store.WF (s : Store) : Prop :=
  s.rows.Pairwise (fun a b => a.id < b.id)

/-- Statements the handlers send to the engine. -/
inductive Stmt where
  | selectAll
  | selectById (id : String)
  | insert (title author : String) (published_year : Int)
  | update (title author : String) (published_year : Int) (id : String)
  | delete (id : String)
  deriving DecidableEq, Repr

/-- `WHERE id = ?` with the bound text `id`. -/
def Row.selected (key : String → Option Int) (id : String) (r : Row) : Bool :=
  key id == some r.id

/-- Largest rowid of the table, if it has a row. -/
def maxRowid : List Row → Option Int
  | [] => none
  | r :: rs =>
    match maxRowid rs with
    | none => some r.id
    | some m => some (max r.id m)

/-- The rowid AUTOINCREMENT gives the next row: one more than the largest
rowid of the table (1 for an empty table), and more than the counter. -/
def Store.nextRowid (s : Store) : Int :=
  let v : Int := match maxRowid s.rows with
    | none => 1
    | some m => m + 1
  if v < s.seq + 1 then s.seq + 1 else v

/-- `SELECT id, title, author, published_year FROM books`. -/
def Store.selectAll (s : Store) : List Row := s.rows

/-- `SELECT ... FROM books WHERE id = ?`, first row (`QueryRow`). -/
def Store.selectById (key : String → Option Int) (s : Store) (id : String) : Option Row :=
  s.rows.find? (Row.selected key id)

/-- `INSERT INTO books (title, author, published_year) VALUES (?, ?, ?)`:
the new store and `LastInsertId`. -/
def Store.insert (s : Store) (title author : String) (year : Int) : Store × Int :=
  let id := s.nextRowid
  (⟨s.rows ++ [⟨id, title, author, some year⟩], id⟩, id)

/-- `UPDATE books SET title = ?, author = ?, published_year = ? WHERE id = ?`:
the new store and `RowsAffected`. -/
def Store.update (key : String → Option Int) (s : Store) (title author : String)
    (year : Int) (id : String) : Store × Nat :=
  (⟨s.rows.map (fun r => if Row.selected key id r then ⟨r.id, title, author, some year⟩ else r),
    s.seq⟩,
   (s.rows.filter (Row.selected key id)).length)

/-- `DELETE FROM books WHERE id = ?`: the new store and `RowsAffected`. -/
def Store.delete (key : String → Option Int) (s : Store) (id : String) : Store × Nat :=
  (⟨s.rows.filter (fun r => !Row.selected key id r), s.seq⟩,
   (s.rows.filter (Row.selected key id)).length)

/-- `Scan(&b.ID, &b.Title, &b.Author, &b.PublishedYear)` of one row: a NULL
year cannot be stored into a Go `int`. -/
def scanRow (r : Row) : Except String Book :=
  match r.published_year with
  | some y => .ok ⟨r.id, r.title, r.author, y⟩
  | none => .error "sql: Scan error on column index 3, name \"published_year\": converting NULL to int is unsupported"

/-! ## strconv.Atoi -/

/-- Value of a decimal digit. -/
def digitVal (c : Char) : Option Nat :=
  if '0' ≤ c ∧ c ≤ '9' then some (c.toNat - '0'.toNat) else none

/-- Value of a run of decimal digits read after `acc`; `none` at the first non-digit. -/
def digitsVal : List Char → Nat → Option Nat
  | [], acc => some acc
  | c :: cs, acc =>
    match digitVal c with
    | none => none
    | some d => digitsVal cs (acc * 10 + d)

/-- Largest and smallest Go `int`. -/
def maxInt : Int := 2 ^ 63 - 1
/-- Smallest Go `int`. -/
def minInt : Int := -(2 ^ 63)

/-- Go `strconv.Atoi`: the value and whether an error is returned. An optional
sign and at least one decimal digit; a syntax error gives 0, a range error
gives the nearest `int`. -/
def Atoi (s : String) : Int × Bool :=
  let (neg, ds) := match s.data with
    | '+' :: rest => (false, rest)
    | '-' :: rest => (true, rest)
    | cs => (false, cs)
  match ds with
  | [] => (0, true)
  | _ =>
    match digitsVal ds 0 with
    | none => (0, true)
    | some n =>
      let v : Int := if neg then -(n : Int) else (n : Int)
      if v > maxInt then (maxInt, true)
      else if v < minInt then (minInt, true)
      else (v, false)

/-- The character of a decimal digit. -/
def digitChar (d : Nat) : Char := Char.ofNat (d + 48)

/-- Decimal digits of `n`, most significant first, put before `acc`; `fuel`
bounds the number of digits. -/
def digitsOf : Nat → Nat → List Char → List Char
  | 0, _, acc => acc
  | fuel + 1, n, acc =>
    if n / 10 = 0 then digitChar (n % 10) :: acc
    else digitsOf fuel (n / 10) (digitChar (n % 10) :: acc)

/-- Go `strconv.Itoa`: the decimal numeral of `n`, with `-` before a negative one. -/
def Itoa (n : Int) : String :=
  if n < 0 then ⟨'-' :: digitsOf (n.natAbs + 1) n.natAbs []⟩
  else ⟨digitsOf (n.natAbs + 1) n.natAbs []⟩

/-! ## Outcome of a request -/

/-- What a handler leaves behind: the store, the response, and the statements
it sent to the engine. `body = none` is a response without body. -/
structure Outcome where
  store : Store
  status : Nat
  body : Option Json
  stmts : List Stmt

/-- A request as a handler of one variant sees it: the route, the path
parameter, and what the variant's own binder made of the body (`none` when
binding fails). -/
inductive Request where
  | list
  | get (id : String)
  | create (body : Option Book)
  | update (id : String) (body : Option Book)
  | delete (id : String)

/-- The rows a served `db.Query` hands to the loop `for rows.Next()`: all of
them, or the first `k` when `rows.Next()` reports false after `k` rows
because of an error. -/
def delivered (cut : Option Nat) (rows : List Row) : List Row :=
  match cut with
  | none => rows
  | some k => rows.take k

/-- A Go slice of Book: the nil slice, or a slice with backing storage. -/
inductive Slice where
  | nil
  | mk (items : List Book)

/-- Go `append(books, b)`. -/
def Slice.append : Slice → Book → Slice
  | .nil, b => .mk [b]
  | .mk items, b => .mk (items ++ [b])

/-- The loop `for rows.Next() { Scan; append }` of the list handlers, from the
slice `acc`: the first row that does not scan ends it with that error. -/
def scanLoop : List Row → Slice → Except String Slice
  | [], acc => .ok acc
  | r :: rs, acc =>
    match scanRow r with
    | .error e => .error e
    | .ok b => scanLoop rs (acc.append b)

/-! ## The Echo variant (`src/go-echo/main.go`) -/

namespace Echo

/-- JSON encoding of a Book: `published_year` carries `omitempty`. -/
def bookJson (b : Book) : Json :=
  .obj ([("id", .num b.ID), ("title", .str b.Title), ("author", .str b.Author)] ++
    (if b.PublishedYear = 0 then [] else [("published_year", .num b.PublishedYear)]))

/-- JSON encoding of a slice of Book: the nil slice encodes as `null`. -/
def sliceJson : Slice → Json
  | .nil => .null
  | .mk items => .arr (items.map bookJson)

/-- Handler `getBooks`. An error of `rows.Next()` ends the loop like the end of
the result set does: the handler answers 200 with the Books scanned so far. -/
def getBooks (dbErr : Option String) (cut : Option Nat) (s : Store) : Outcome :=
  match dbErr with
  | some e => ⟨s, 500, some (errorJson e), [.selectAll]⟩
  | none =>
    -- var books []Book
    match scanLoop (delivered cut s.selectAll) .nil with
    | .error e => ⟨s, 500, some (errorJson e), [.selectAll]⟩
    | .ok books => ⟨s, 200, some (sliceJson books), [.selectAll]⟩

/-- Handler `getBook`. -/
def getBook (key : String → Option Int) (dbErr : Option String) (s : Store)
    (id : String) : Outcome :=
  match dbErr with
  | some e => ⟨s, 500, some (errorJson e), [.selectById id]⟩
  | none =>
    match s.selectById key id with
    | none => ⟨s, 404, some (errorJson "Book not found"), [.selectById id]⟩
    | some r =>
      match scanRow r with
      | .error e => ⟨s, 500, some (errorJson e), [.selectById id]⟩
      | .ok b => ⟨s, 200, some (bookJson b), [.selectById id]⟩

/-- Handler `createBook`. -/
def createBook (dbErr : Option String) (s : Store) (body : Option Book) : Outcome :=
  match body with
  | none => ⟨s, 400, some (errorJson "Invalid request"), []⟩
  | some b =>
    if b.Title = "" ∨ b.Author = "" then
      ⟨s, 400, some (errorJson "Title and author are required"), []⟩
    else
      match dbErr with
      | some e =>
        ⟨s, 500, some (errorJson e), [.insert b.Title b.Author b.PublishedYear]⟩
      | none =>
        let res := s.insert b.Title b.Author b.PublishedYear
        ⟨res.1, 201, some (bookJson { b with ID := res.2 }),
          [.insert b.Title b.Author b.PublishedYear]⟩

/-- Handler `updateBook`. -/
def updateBook (key : String → Option Int) (dbErr : Option String) (s : Store)
    (id : String) (body : Option Book) : Outcome :=
  match body with
  | none => ⟨s, 400, some (errorJson "Invalid request"), []⟩
  | some b =>
    match dbErr with
    | some e =>
      ⟨s, 500, some (errorJson e), [.update b.Title b.Author b.PublishedYear id]⟩
    | none =>
      let res := s.update key b.Title b.Author b.PublishedYear id
      if res.2 = 0 then
        ⟨res.1, 404, some (errorJson "Book not found"),
          [.update b.Title b.Author b.PublishedYear id]⟩
      else
        -- idInt, _ := strconv.Atoi(id)
        ⟨res.1, 200, some (bookJson { b with ID := (Atoi id).1 }),
          [.update b.Title b.Author b.PublishedYear id]⟩

/-- Handler `deleteBook`. -/
def deleteBook (key : String → Option Int) (dbErr : Option String) (s : Store)
    (id : String) : Outcome :=
  match dbErr with
  | some e => ⟨s, 500, some (errorJson e), [.delete id]⟩
  | none =>
    let res := s.delete key id
    if res.2 = 0 then
      ⟨res.1, 404, some (errorJson "Book not found"), [.delete id]⟩
    else
      ⟨res.1, 204, none, [.delete id]⟩

/-- The book routes registered in `main`. -/
def handle (key : String → Option Int) (dbErr : Option String) (cut : Option Nat)
    (s : Store) : Request → Outcome
  | .list => getBooks dbErr cut s
  | .get id => getBook key dbErr s id
  | .create body => createBook dbErr s body
  | .update id body => updateBook key dbErr s id body
  | .delete id => deleteBook key dbErr s id

end Echo

/-! ## The Fiber variant (`src/go-fiber/main.go`) -/

namespace Fiber

/-- JSON encoding of a Book: all four members, always. -/
def bookJson (b : Book) : Json :=
  .obj [("id", .num b.ID), ("title", .str b.Title), ("author", .str b.Author),
    ("published_year", .num b.PublishedYear)]

/-- JSON encoding of a slice of Book: the nil slice encodes as `null`. -/
def sliceJson : Slice → Json
  | .nil => .null
  | .mk items => .arr (items.map bookJson)

/-- Handler of `GET /api/v1/books`. An error of `rows.Next()` ends the loop like
the end of the result set does: the handler answers 200 with the Books
scanned so far. -/
def getBooks (dbErr : Option String) (cut : Option Nat) (s : Store) : Outcome :=
  match dbErr with
  | some e => ⟨s, 500, some (errorJson e), [.selectAll]⟩
  | none =>
    -- books := []Book{}
    match scanLoop (delivered cut s.selectAll) (.mk []) with
    | .error e => ⟨s, 500, some (errorJson e), [.selectAll]⟩
    | .ok books => ⟨s, 200, some (sliceJson books), [.selectAll]⟩

/-- Handler of `GET /api/v1/books/:id`. -/
def getBook (key : String → Option Int) (dbErr : Option String) (s : Store)
    (id : String) : Outcome :=
  match dbErr with
  | some e => ⟨s, 500, some (errorJson e), [.selectById id]⟩
  | none =>
    match s.selectById key id with
    | none => ⟨s, 404, some (errorJson "Book not found"), [.selectById id]⟩
    | some r =>
      match scanRow r with
      | .error e => ⟨s, 500, some (errorJson e), [.selectById id]⟩
      | .ok b => ⟨s, 200, some (bookJson b), [.selectById id]⟩

/-- Handler of `POST /api/v1/books`. -/
def createBook (dbErr : Option String) (s : Store) (body : Option Book) : Outcome :=
  match body with
  | none => ⟨s, 400, some (errorJson "Invalid request"), []⟩
  | some b =>
    if b.Title = "" ∨ b.Author = "" then
      ⟨s, 400, some (errorJson "Title and author required"), []⟩
    else
      match dbErr with
      | some e =>
        ⟨s, 500, some (errorJson e), [.insert b.Title b.Author b.PublishedYear]⟩
      | none =>
        let res := s.insert b.Title b.Author b.PublishedYear
        ⟨res.1, 201, some (bookJson { b with ID := res.2 }),
          [.insert b.Title b.Author b.PublishedYear]⟩

/-- Handler of `PUT /api/v1/books/:id`. -/
def updateBook (key : String → Option Int) (dbErr : Option String) (s : Store)
    (id : String) (body : Option Book) : Outcome :=
  match body with
  | none => ⟨s, 400, some (errorJson "Invalid request"), []⟩
  | some b =>
    match dbErr with
    | some e =>
      ⟨s, 500, some (errorJson e), [.update b.Title b.Author b.PublishedYear id]⟩
    | none =>
      let res := s.update key b.Title b.Author b.PublishedYear id
      if res.2 = 0 then
        ⟨res.1, 404, some (errorJson "Book not found"),
          [.update b.Title b.Author b.PublishedYear id]⟩
      else
        -- idInt, _ := strconv.Atoi(id)
        ⟨res.1, 200, some (bookJson { b with ID := (Atoi id).1 }),
          [.update b.Title b.Author b.PublishedYear id]⟩

/-- Handler of `DELETE /api/v1/books/:id`. -/
def deleteBook (key : String → Option Int) (dbErr : Option String) (s : Store)
    (id : String) : Outcome :=
  match dbErr with
  | some e => ⟨s, 500, some (errorJson e), [.delete id]⟩
  | none =>
    let res := s.delete key id
    if res.2 = 0 then
      ⟨res.1, 404, some (errorJson "Book not found"), [.delete id]⟩
    else
      ⟨res.1, 204, none, [.delete id]⟩

/-- The book routes registered in `main`. -/
def handle (key : String → Option Int) (dbErr : Option String) (cut : Option Nat)
    (s : Store) : Request → Outcome
  | .list => getBooks dbErr cut s
  | .get id => getBook key dbErr s id
  | .create body => createBook dbErr s body
  | .update id body => updateBook key dbErr s id body
  | .delete id => deleteBook key dbErr s id

end Fiber

/-! ## One HTTP request, bound by each framework -/

/-- Media type of a request, as far as the two binders tell them apart here. -/
inductive MediaType where
  -- Content-Type: application/json
  | json
  -- no Content-Type, or one that neither binder handles, such as text/plain
  | unhandled
  deriving DecidableEq, Repr

/-- Content of a request body. -/
inductive Content where
  -- no bytes: Content-Length 0
  | empty
  -- one JSON object whose members decode to the Book b, and nothing else
  | object (b : Book)
  -- bytes that do not decode to a Book
  | undecodable
  deriving DecidableEq, Repr

/-- The body of a request. Forms, XML and vendor JSON types are left out. -/
structure Payload where
  mediaType : MediaType
  content : Content
  deriving DecidableEq, Repr

/-- An HTTP request to one of the five book routes. -/
inductive HttpRequest where
  | getBooks
  | getBook (id : String)
  | post (p : Payload)
  | put (id : String) (p : Payload)
  | delete (id : String)

/-- Echo `c.Bind(&b)` on `var b Book`: a request without body binds nothing and
is no error, so `b` stays the zero Book; otherwise the media type decides. -/
def Echo.Bind (p : Payload) : Option Book :=
  match p.content with
  | .empty => some ⟨0, "", "", 0⟩
  | .object b =>
    match p.mediaType with
    | .json => some b
    | .unhandled => none
  | .undecodable => none

/-- Fiber `c.BodyParser(&b)`: the media type decides first, then the JSON
decoder, which rejects an empty body. -/
def Fiber.BodyParser (p : Payload) : Option Book :=
  match p.mediaType with
  | .unhandled => none
  | .json =>
    match p.content with
    | .empty => none
    | .object b => some b
    | .undecodable => none

/-- What the Echo handlers see of an HTTP request. -/
def Echo.route : HttpRequest → Request
  | .getBooks => .list
  | .getBook id => .get id
  | .post p => .create (Echo.Bind p)
  | .put id p => .update id (Echo.Bind p)
  | .delete id => .delete id

/-- What the Fiber handlers see of an HTTP request. -/
def Fiber.route : HttpRequest → Request
  | .getBooks => .list
  | .getBook id => .get id
  | .post p => .create (Fiber.BodyParser p)
  | .put id p => .update id (Fiber.BodyParser p)
  | .delete id => .delete id

/-- The Echo variant answering an HTTP request. -/
def Echo.serve (key : String → Option Int) (dbErr : Option String) (cut : Option Nat)
    (s : Store) (r : HttpRequest) : Outcome :=
  Echo.handle key dbErr cut s (Echo.route r)

/-- The Fiber variant answering an HTTP request. -/
def Fiber.serve (key : String → Option Int) (dbErr : Option String) (cut : Option Nat)
    (s : Store) (r : HttpRequest) : Outcome :=
  Fiber.handle key dbErr cut s (Fiber.route r)

/-! ## Reachable stores, and concrete inputs -/

/-- Stores reachable from the empty store by requests to either variant,
whatever the binder makes of each body and whatever the driver reports. -/
inductive Reachable (key : String → Option Int) : Store → Prop
  | init : Reachable key Store.empty
  | echo (s : Store) (dbErr : Option String) (cut : Option Nat) (req : Request) :
      Reachable key s → Reachable key (Echo.handle key dbErr cut s req).store
  | fiber (s : Store) (dbErr : Option String) (cut : Option Nat) (req : Request) :
      Reachable key s → Reachable key (Fiber.handle key dbErr cut s req).store

/-- Every persisted Book has a non-empty title and a non-empty author. -/
def Store.NonEmptyFields (s : Store) : Prop :=
  ∀ r ∈ s.rows, r.title ≠ "" ∧ r.author ≠ ""

/-- White space as the engine skips it around a numeral. -/
def isSpace (c : Char) : Bool :=
  c = ' ' ∨ c = '\t' ∨ c = '\n' ∨ c = '\x0b' ∨ c = '\x0c' ∨ c = '\r'

/-- Largest integer up to which every integer is a double. -/
def maxExact : Int := 2 ^ 53

/-- The engine's coercion of a bound text to a rowid, on decimal numerals.
SQLite compares a TEXT operand with an INTEGER column after applying NUMERIC
affinity to the text (Datatypes In SQLite, section 4.2): white space around
the numeral is skipped; an optionally signed run of digits is the 64-bit
integer it denotes; with a point and a fraction of zeros the text is a real
and selects the integer it equals, which this instance answers up to 2^53,
where the real is exact. So `1`, `+1`, `01`, ` 1` and `1.0` alike select
rowid 1. This instance answers `none` for every other text, among them
numerals with an exponent and larger numerals with a fraction, which the
engine may still coerce; it supplies the concrete inputs below, the general
statements hold for every coercion. -/
def decimalKey (s : String) : Option Int :=
  let body := ((s.data.dropWhile isSpace).reverse.dropWhile isSpace).reverse
  let (neg, cs) := match body with
    | '+' :: rest => (false, rest)
    | '-' :: rest => (true, rest)
    | cs => (false, cs)
  let ds := cs.takeWhile Char.isDigit
  match digitsVal ds 0 with
  | none => none
  | some n =>
    let v : Int := if neg then -(n : Int) else (n : Int)
    match cs.dropWhile Char.isDigit with
    | [] => if ds ≠ [] ∧ minInt ≤ v ∧ v ≤ maxInt then some v else none
    | '.' :: zs =>
      if (ds ≠ [] ∨ zs ≠ []) ∧ zs.all (· == '0') ∧ -maxExact ≤ v ∧ v ≤ maxExact then some v
      else none
    | _ => none

/-- A store holding one Book under id 1. -/
def dune : Store :=
  ⟨[⟨1, "Dune", "Herbert", some 1965⟩], 1⟩

/-- A store holding three Books; id 3 was deleted earlier. -/
def shelf : Store :=
  ⟨[⟨1, "Dune", "Herbert", some 1965⟩, ⟨2, "Emma", "Austen", some 0⟩,
    ⟨4, "Ulysses", "Joyce", some 1922⟩], 4⟩

/-! ## Derived notions used by the statements -/

/-- The Book a row with a non-NULL year scans to. -/
def rowBook (r : Row) : Book :=
  ⟨r.id, r.title, r.author, r.published_year.getD 0⟩

/-- No row holds NULL in `published_year`. -/
def Store.YearsSet (s : Store) : Prop :=
  ∀ r ∈ s.rows, r.published_year ≠ none

/-- Invariant of the reachable stores: ids strictly increase along the table,
none is above the counter, and no year is NULL. -/
def Store.Inv (s : Store) : Prop :=
  s.WF ∧ (∀ r ∈ s.rows, r.id ≤ s.seq) ∧ s.YearsSet

/-- What a request can do to the store, in either variant. -/
def StoreStep (key : String → Option Int) (s s' : Store) : Prop :=
  s' = s ∨ (∃ t a y, s' = (s.insert t a y).1) ∨
    (∃ t a y id, s' = (s.update key t a y id).1) ∨ (∃ id, s' = (s.delete key id).1)

/-- The sequence of Books the Echo List response denotes. -/
def Echo.listed (s : Store) : Option (List Book) :=
  (Echo.getBooks none none s).body.bind readBooks

/-- The sequence of Books the Fiber List response denotes. -/
def Fiber.listed (s : Store) : Option (List Book) :=
  (Fiber.getBooks none none s).body.bind readBooks

/-! ## Lemmas on the encodings -/

theorem readBook_echo (b : Book) : readBook (Echo.bookJson b) = some b := by
  by_cases h : b.PublishedYear = 0
  · cases b
    simp only at h
    subst h
    simp [readBook, Echo.bookJson, Json.intMember, Json.strMember, Json.member]
  · simp [readBook, Echo.bookJson, Json.intMember, Json.strMember, Json.member, h]

theorem readBook_fiber (b : Book) : readBook (Fiber.bookJson b) = some b := by
  simp [readBook, Fiber.bookJson, Json.intMember, Json.strMember, Json.member]

theorem bookJson_eq_of_year_ne_zero (b : Book) (h : b.PublishedYear ≠ 0) :
    Echo.bookJson b = Fiber.bookJson b := by
  simp [Echo.bookJson, Fiber.bookJson, h]

theorem readItems_echo (l : List Book) : readItems (l.map Echo.bookJson) = some l := by
  induction l with
  | nil => rfl
  | cons b bs ih => simp [readItems, readBook_echo, ih]

theorem readItems_fiber (l : List Book) : readItems (l.map Fiber.bookJson) = some l := by
  induction l with
  | nil => rfl
  | cons b bs ih => simp [readItems, readBook_fiber, ih]

/-! ## Lemmas on the store -/

theorem scanRow_of_year (r : Row) (h : r.published_year ≠ none) :
    scanRow r = .ok (rowBook r) := by
  cases r with
  | mk i t a y =>
    cases y with
    | none => exact absurd rfl h
    | some y => rfl

theorem scanLoop_mk (rows : List Row) (h : ∀ r ∈ rows, r.published_year ≠ none)
    (acc : List Book) :
    scanLoop rows (.mk acc) = .ok (.mk (acc ++ rows.map rowBook)) := by
  induction rows generalizing acc with
  | nil => simp [scanLoop]
  | cons r rs ih =>
    have hr := scanRow_of_year r (h r (List.mem_cons_self r rs))
    have hrs : ∀ x ∈ rs, x.published_year ≠ none :=
      fun x hx => h x (List.mem_cons_of_mem r hx)
    simp [scanLoop, hr, Slice.append, ih hrs]

theorem scanLoop_nil_cons (r : Row) (rs : List Row)
    (h : ∀ x ∈ r :: rs, x.published_year ≠ none) :
    scanLoop (r :: rs) .nil = .ok (.mk ((r :: rs).map rowBook)) := by
  have hr := scanRow_of_year r (h r (List.mem_cons_self r rs))
  have hrs : ∀ x ∈ rs, x.published_year ≠ none :=
    fun x hx => h x (List.mem_cons_of_mem r hx)
  simp [scanLoop, hr, Slice.append, scanLoop_mk rs hrs]

theorem maxRowid_ge (rows : List Row) (r : Row) (h : r ∈ rows) :
    ∃ m, maxRowid rows = some m ∧ r.id ≤ m := by
  induction rows with
  | nil => cases h
  | cons x xs ih =>
    rcases List.mem_cons.mp h with rfl | hx
    · cases hm : maxRowid xs with
      | none => exact ⟨r.id, by simp [maxRowid, hm], le_refl _⟩
      | some m => exact ⟨max r.id m, by simp [maxRowid, hm], le_max_left _ _⟩
    · obtain ⟨m, hm, hle⟩ := ih hx
      exact ⟨max x.id m, by simp [maxRowid, hm], le_trans hle (le_max_right _ _)⟩

theorem nextRowid_gt (s : Store) (r : Row) (h : r ∈ s.rows) : r.id < s.nextRowid := by
  obtain ⟨m, hm, hle⟩ := maxRowid_ge s.rows r h
  simp only [Store.nextRowid, hm]
  split_ifs <;> omega

theorem nextRowid_gt_seq (s : Store) : s.seq < s.nextRowid := by
  simp only [Store.nextRowid]
  cases maxRowid s.rows <;> simp only <;> split_ifs <;> omega

theorem selected_iff (key : String → Option Int) (id : String) (r : Row) :
    Row.selected key id r = true ↔ key id = some r.id := by
  simp [Row.selected]

theorem selected_of_key (key : String → Option Int) (id : String) (n : Int)
    (h : key id = some n) (r : Row) : Row.selected key id r = decide (r.id = n) := by
  by_cases hr : r.id = n
  · simp [Row.selected, h, hr]
  · have : ¬ n = r.id := fun e => hr e.symm
    simp [Row.selected, h, hr, this]

theorem filter_selected_nil (key : String → Option Int) (id : String) (rows : List Row)
    (h : ∀ r ∈ rows, key id ≠ some r.id) : rows.filter (Row.selected key id) = [] := by
  rw [List.filter_eq_nil_iff]
  intro r hr
  simp [Row.selected, h r hr]

theorem filter_not_selected_self (key : String → Option Int) (id : String) (rows : List Row)
    (h : ∀ r ∈ rows, key id ≠ some r.id) :
    rows.filter (fun r => !Row.selected key id r) = rows := by
  rw [List.filter_eq_self]
  intro r hr
  simp [Row.selected, h r hr]

theorem map_update_self (key : String → Option Int) (id : String) (rows : List Row)
    (t a : String) (y : Int) (h : ∀ r ∈ rows, key id ≠ some r.id) :
    rows.map (fun r => if Row.selected key id r then (⟨r.id, t, a, some y⟩ : Row) else r)
      = rows := by
  induction rows with
  | nil => rfl
  | cons x xs ih =>
    have hx : Row.selected key id x = false := by
      simp [Row.selected, h x (List.mem_cons_self x xs)]
    simp only [List.map_cons, hx]
    rw [ih (fun r hr => h r (List.mem_cons_of_mem x hr))]
    simp

theorem filter_selected_pos (key : String → Option Int) (id : String) (rows : List Row)
    (r : Row) (hr : r ∈ rows) (h : key id = some r.id) :
    (rows.filter (Row.selected key id)).length ≠ 0 := by
  have hm : r ∈ rows.filter (Row.selected key id) :=
    List.mem_filter.mpr ⟨hr, (selected_iff key id r).mpr h⟩
  intro h0
  rw [List.length_eq_zero] at h0
  rw [h0] at hm
  cases hm

theorem selectById_insert (key : String → Option Int) (s : Store) (t a : String) (y : Int)
    (path : String) (h : key path = some s.nextRowid) :
    (s.insert t a y).1.selectById key path = some ⟨s.nextRowid, t, a, some y⟩ := by
  have hnone : s.rows.find? (Row.selected key path) = none := by
    rw [List.find?_eq_none]
    intro r hr hsel
    have hlt := nextRowid_gt s r hr
    rw [selected_iff, h] at hsel
    have : s.nextRowid = r.id := Option.some.inj hsel
    omega
  simp [Store.selectById, Store.insert, List.find?_append, hnone, Row.selected, h]

theorem filter_not_selected (key : String → Option Int) (id : String) (n : Int)
    (h : key id = some n) (rows : List Row) :
    rows.filter (fun r => !Row.selected key id r) = rows.filter (fun r => decide (r.id ≠ n)) := by
  apply List.filter_congr
  intro r _
  rw [selected_of_key key id n h r]
  simp

theorem map_update_of_key (key : String → Option Int) (id : String) (n : Int)
    (h : key id = some n) (rows : List Row) (t a : String) (y : Int) :
    rows.map (fun r => if Row.selected key id r then (⟨r.id, t, a, some y⟩ : Row) else r)
      = rows.map (fun r => if r.id = n then (⟨n, t, a, some y⟩ : Row) else r) := by
  apply List.map_congr_left
  intro r _
  rw [selected_of_key key id n h r]
  by_cases hr : r.id = n
  · simp [hr]
  · simp [hr]

theorem length_filter_ne_id (n : Int) (rows : List Row)
    (hwf : rows.Pairwise (fun a b => a.id < b.id)) (hex : ∃ r ∈ rows, r.id = n) :
    (rows.filter (fun r => decide (r.id ≠ n))).length + 1 = rows.length := by
  induction rows with
  | nil =>
    obtain ⟨r, hr, _⟩ := hex
    cases hr
  | cons x xs ih =>
    rw [List.pairwise_cons] at hwf
    by_cases hx : x.id = n
    · have hall : xs.filter (fun r => decide (r.id ≠ n)) = xs := by
        rw [List.filter_eq_self]
        intro y hy
        have := hwf.1 y hy
        simp only [decide_eq_true_eq]
        omega
      have hp : decide (x.id ≠ n) = false := by simp [hx]
      simp only [List.filter_cons, hp, hall, Bool.false_eq_true, if_false, List.length_cons]
    · have hex2 : ∃ r ∈ xs, r.id = n := by
        obtain ⟨r, hr, hrn⟩ := hex
        rcases List.mem_cons.mp hr with rfl | hr2
        · exact absurd hrn hx
        · exact ⟨r, hr2, hrn⟩
      have hlen := ih hwf.2 hex2
      have hp : decide (x.id ≠ n) = true := by simp [hx]
      simp only [List.filter_cons, hp, if_true, List.length_cons]
      omega

theorem echo_create_ok (s : Store) (b : Book) (ht : b.Title ≠ "") (ha : b.Author ≠ "") :
    Echo.createBook none s (some b) =
      ⟨(s.insert b.Title b.Author b.PublishedYear).1, 201,
        some (Echo.bookJson ⟨s.nextRowid, b.Title, b.Author, b.PublishedYear⟩),
        [.insert b.Title b.Author b.PublishedYear]⟩ := by
  simp [Echo.createBook, ht, ha, Store.insert]

theorem fiber_create_ok (s : Store) (b : Book) (ht : b.Title ≠ "") (ha : b.Author ≠ "") :
    Fiber.createBook none s (some b) =
      ⟨(s.insert b.Title b.Author b.PublishedYear).1, 201,
        some (Fiber.bookJson ⟨s.nextRowid, b.Title, b.Author, b.PublishedYear⟩),
        [.insert b.Title b.Author b.PublishedYear]⟩ := by
  simp [Fiber.createBook, ht, ha, Store.insert]

theorem echo_get_found (key : String → Option Int) (s : Store) (path : String) (r : Row)
    (y : Int) (h : s.selectById key path = some r) (hy : r.published_year = some y) :
    Echo.getBook key none s path =
      ⟨s, 200, some (Echo.bookJson ⟨r.id, r.title, r.author, y⟩), [.selectById path]⟩ := by
  simp [Echo.getBook, h, scanRow, hy]

theorem fiber_get_found (key : String → Option Int) (s : Store) (path : String) (r : Row)
    (y : Int) (h : s.selectById key path = some r) (hy : r.published_year = some y) :
    Fiber.getBook key none s path =
      ⟨s, 200, some (Fiber.bookJson ⟨r.id, r.title, r.author, y⟩), [.selectById path]⟩ := by
  simp [Fiber.getBook, h, scanRow, hy]

theorem echo_get_missing (key : String → Option Int) (s : Store) (path : String)
    (h : s.selectById key path = none) :
    Echo.getBook key none s path =
      ⟨s, 404, some (errorJson "Book not found"), [.selectById path]⟩ := by
  simp [Echo.getBook, h]

theorem fiber_get_missing (key : String → Option Int) (s : Store) (path : String)
    (h : s.selectById key path = none) :
    Fiber.getBook key none s path =
      ⟨s, 404, some (errorJson "Book not found"), [.selectById path]⟩ := by
  simp [Fiber.getBook, h]

theorem echo_delete_hit (key : String → Option Int) (s : Store) (id : String)
    (h : (s.rows.filter (Row.selected key id)).length ≠ 0) :
    Echo.deleteBook key none s id =
      ⟨⟨s.rows.filter (fun r => !Row.selected key id r), s.seq⟩, 204, none, [.delete id]⟩ := by
  simp only [Echo.deleteBook, Store.delete]
  rw [if_neg h]

theorem fiber_delete_hit (key : String → Option Int) (s : Store) (id : String)
    (h : (s.rows.filter (Row.selected key id)).length ≠ 0) :
    Fiber.deleteBook key none s id =
      ⟨⟨s.rows.filter (fun r => !Row.selected key id r), s.seq⟩, 204, none, [.delete id]⟩ := by
  simp only [Fiber.deleteBook, Store.delete]
  rw [if_neg h]

theorem echo_delete_miss (key : String → Option Int) (s : Store) (id : String)
    (h : ∀ r ∈ s.rows, key id ≠ some r.id) :
    Echo.deleteBook key none s id =
      ⟨s, 404, some (errorJson "Book not found"), [.delete id]⟩ := by
  have h0 : (s.rows.filter (Row.selected key id)).length = 0 := by
    rw [filter_selected_nil key id s.rows h]; rfl
  simp only [Echo.deleteBook, Store.delete]
  rw [if_pos h0, filter_not_selected_self key id s.rows h]

theorem fiber_delete_miss (key : String → Option Int) (s : Store) (id : String)
    (h : ∀ r ∈ s.rows, key id ≠ some r.id) :
    Fiber.deleteBook key none s id =
      ⟨s, 404, some (errorJson "Book not found"), [.delete id]⟩ := by
  have h0 : (s.rows.filter (Row.selected key id)).length = 0 := by
    rw [filter_selected_nil key id s.rows h]; rfl
  simp only [Fiber.deleteBook, Store.delete]
  rw [if_pos h0, filter_not_selected_self key id s.rows h]

/-- After `DELETE ... WHERE id = ?` no row is selected by a text with the same rowid. -/
theorem delete_store_unselected (key : String → Option Int) (s : Store) (id path : String)
    (hp : key path = key id) :
    ∀ r ∈ (s.delete key id).1.rows, key path ≠ some r.id := by
  intro r hr hsel
  simp only [Store.delete, List.mem_filter] at hr
  have : Row.selected key id r = true := by
    rw [selected_iff, ← hp]; exact hsel
  simp [this] at hr

theorem selectById_none (key : String → Option Int) (s : Store) (path : String)
    (h : ∀ r ∈ s.rows, key path ≠ some r.id) : s.selectById key path = none := by
  simp only [Store.selectById]
  rw [List.find?_eq_none]
  intro r hr hsel
  exact h r hr ((selected_iff key path r).mp hsel)

theorem echo_delete_store (key : String → Option Int) (s : Store) (id : String) :
    (Echo.deleteBook key none s id).store = (s.delete key id).1 := by
  simp only [Echo.deleteBook]
  split_ifs <;> rfl

theorem fiber_delete_store (key : String → Option Int) (s : Store) (id : String) :
    (Fiber.deleteBook key none s id).store = (s.delete key id).1 := by
  simp only [Fiber.deleteBook]
  split_ifs <;> rfl

theorem echo_update_hit (key : String → Option Int) (s : Store) (id : String) (b : Book)
    (h : (s.rows.filter (Row.selected key id)).length ≠ 0) :
    Echo.updateBook key none s id (some b) =
      ⟨(s.update key b.Title b.Author b.PublishedYear id).1, 200,
        some (Echo.bookJson ⟨(Atoi id).1, b.Title, b.Author, b.PublishedYear⟩),
        [.update b.Title b.Author b.PublishedYear id]⟩ := by
  simp only [Echo.updateBook, Store.update]
  rw [if_neg h]

theorem fiber_update_hit (key : String → Option Int) (s : Store) (id : String) (b : Book)
    (h : (s.rows.filter (Row.selected key id)).length ≠ 0) :
    Fiber.updateBook key none s id (some b) =
      ⟨(s.update key b.Title b.Author b.PublishedYear id).1, 200,
        some (Fiber.bookJson ⟨(Atoi id).1, b.Title, b.Author, b.PublishedYear⟩),
        [.update b.Title b.Author b.PublishedYear id]⟩ := by
  simp only [Fiber.updateBook, Store.update]
  rw [if_neg h]

theorem inv_empty : Store.empty.Inv := by
  refine ⟨List.Pairwise.nil, ?_, ?_⟩
  · intro r hr
    cases hr
  · intro r hr
    cases hr

theorem inv_insert (s : Store) (t a : String) (y : Int) (h : s.Inv) :
    (s.insert t a y).1.Inv := by
  obtain ⟨hwf, hseq, hy⟩ := h
  refine ⟨?_, ?_, ?_⟩
  · simp only [Store.WF, Store.insert]
    rw [List.pairwise_append]
    refine ⟨hwf, List.pairwise_singleton _ _, ?_⟩
    intro r hr x hx
    rw [List.mem_singleton] at hx
    subst hx
    exact nextRowid_gt s r hr
  · intro r hr
    simp only [Store.insert, List.mem_append, List.mem_singleton] at hr
    rcases hr with hr | rfl
    · exact le_of_lt (nextRowid_gt s r hr)
    · exact le_refl _
  · intro r hr
    simp only [Store.insert, List.mem_append, List.mem_singleton] at hr
    rcases hr with hr | rfl
    · exact hy r hr
    · simp

theorem inv_update (key : String → Option Int) (s : Store) (t a : String) (y : Int)
    (id : String) (h : s.Inv) : (s.update key t a y id).1.Inv := by
  obtain ⟨hwf, hseq, hy⟩ := h
  refine ⟨?_, ?_, ?_⟩
  · simp only [Store.WF, Store.update]
    rw [List.pairwise_map]
    refine List.Pairwise.imp ?_ hwf
    intro x z hxz
    by_cases hx : Row.selected key id x <;> by_cases hz : Row.selected key id z <;>
      simp [hx, hz, hxz]
  · intro r hr
    simp only [Store.update, List.mem_map] at hr
    obtain ⟨x, hx, rfl⟩ := hr
    have hle := hseq x hx
    by_cases hsel : Row.selected key id x <;> simp [hsel] <;> exact hle
  · intro r hr
    simp only [Store.update, List.mem_map] at hr
    obtain ⟨x, hx, rfl⟩ := hr
    by_cases hsel : Row.selected key id x
    · simp [hsel]
    · simp only [hsel]
      exact hy x hx

theorem inv_delete (key : String → Option Int) (s : Store) (id : String) (h : s.Inv) :
    (s.delete key id).1.Inv := by
  obtain ⟨hwf, hseq, hy⟩ := h
  refine ⟨?_, ?_, ?_⟩
  · simp only [Store.WF, Store.delete]
    exact List.Pairwise.sublist (List.filter_sublist _) hwf
  · intro r hr
    simp only [Store.delete] at hr
    exact hseq r (List.mem_of_mem_filter hr)
  · intro r hr
    simp only [Store.delete] at hr
    exact hy r (List.mem_of_mem_filter hr)

theorem inv_step (key : String → Option Int) (s s' : Store) (h : s.Inv)
    (hs : StoreStep key s s') : s'.Inv := by
  rcases hs with rfl | ⟨t, a, y, rfl⟩ | ⟨t, a, y, id, rfl⟩ | ⟨id, rfl⟩
  · exact h
  · exact inv_insert s t a y h
  · exact inv_update key s t a y id h
  · exact inv_delete key s id h

theorem echo_step (key : String → Option Int) (dbErr : Option String) (cut : Option Nat)
    (s : Store) (req : Request) : StoreStep key s (Echo.handle key dbErr cut s req).store := by
  cases req with
  | list =>
    simp only [Echo.handle, Echo.getBooks]
    cases dbErr <;> simp only
    · split <;> exact Or.inl rfl
    · exact Or.inl rfl
  | get id =>
    simp only [Echo.handle, Echo.getBook]
    cases dbErr <;> simp only
    · split
      · exact Or.inl rfl
      · split <;> exact Or.inl rfl
    · exact Or.inl rfl
  | create body =>
    simp only [Echo.handle, Echo.createBook]
    cases body with
    | none => exact Or.inl rfl
    | some b =>
      simp only
      split_ifs
      · exact Or.inl rfl
      · cases dbErr with
        | some e => exact Or.inl rfl
        | none => exact Or.inr (Or.inl ⟨_, _, _, rfl⟩)
  | update id body =>
    simp only [Echo.handle, Echo.updateBook]
    cases body with
    | none => exact Or.inl rfl
    | some b =>
      cases dbErr with
      | some e => exact Or.inl rfl
      | none =>
        simp only
        split_ifs <;> exact Or.inr (Or.inr (Or.inl ⟨_, _, _, _, rfl⟩))
  | delete id =>
    simp only [Echo.handle, Echo.deleteBook]
    cases dbErr with
    | some e => exact Or.inl rfl
    | none =>
      simp only
      split_ifs <;> exact Or.inr (Or.inr (Or.inr ⟨_, rfl⟩))

theorem fiber_step (key : String → Option Int) (dbErr : Option String) (cut : Option Nat)
    (s : Store) (req : Request) : StoreStep key s (Fiber.handle key dbErr cut s req).store := by
  cases req with
  | list =>
    simp only [Fiber.handle, Fiber.getBooks]
    cases dbErr <;> simp only
    · split <;> exact Or.inl rfl
    · exact Or.inl rfl
  | get id =>
    simp only [Fiber.handle, Fiber.getBook]
    cases dbErr <;> simp only
    · split
      · exact Or.inl rfl
      · split <;> exact Or.inl rfl
    · exact Or.inl rfl
  | create body =>
    simp only [Fiber.handle, Fiber.createBook]
    cases body with
    | none => exact Or.inl rfl
    | some b =>
      simp only
      split_ifs
      · exact Or.inl rfl
      · cases dbErr with
        | some e => exact Or.inl rfl
        | none => exact Or.inr (Or.inl ⟨_, _, _, rfl⟩)
  | update id body =>
    simp only [Fiber.handle, Fiber.updateBook]
    cases body with
    | none => exact Or.inl rfl
    | some b =>
      cases dbErr with
      | some e => exact Or.inl rfl
      | none =>
        simp only
        split_ifs <;> exact Or.inr (Or.inr (Or.inl ⟨_, _, _, _, rfl⟩))
  | delete id =>
    simp only [Fiber.handle, Fiber.deleteBook]
    cases dbErr with
    | some e => exact Or.inl rfl
    | none =>
      simp only
      split_ifs <;> exact Or.inr (Or.inr (Or.inr ⟨_, rfl⟩))

theorem inv_reachable (key : String → Option Int) (s : Store) (h : Reachable key s) :
    s.Inv := by
  induction h with
  | init => exact inv_empty
  | echo s dbErr cut req _ ih => exact inv_step key _ _ ih (echo_step key dbErr cut s req)
  | fiber s dbErr cut req _ ih => exact inv_step key _ _ ih (fiber_step key dbErr cut s req)

theorem echo_list_nil (s : Store) (h : s.rows = []) :
    Echo.getBooks none none s = ⟨s, 200, some Json.null, [.selectAll]⟩ := by
  simp [Echo.getBooks, Store.selectAll, delivered, h, scanLoop, Echo.sliceJson]

theorem echo_list_cons (s : Store) (hy : s.YearsSet) (h : s.rows ≠ []) :
    Echo.getBooks none none s
      = ⟨s, 200, some (.arr ((s.rows.map rowBook).map Echo.bookJson)), [.selectAll]⟩ := by
  cases hrows : s.rows with
  | nil => exact absurd hrows h
  | cons r rs =>
    have hy2 : ∀ x ∈ r :: rs, x.published_year ≠ none := by
      intro x hx
      exact hy x (by rw [hrows]; exact hx)
    simp only [Echo.getBooks, Store.selectAll, delivered, hrows, scanLoop_nil_cons r rs hy2,
      Echo.sliceJson]

theorem fiber_list (s : Store) (hy : s.YearsSet) :
    Fiber.getBooks none none s
      = ⟨s, 200, some (.arr ((s.rows.map rowBook).map Fiber.bookJson)), [.selectAll]⟩ := by
  simp only [Fiber.getBooks, Store.selectAll, delivered, scanLoop_mk s.rows hy [],
    Fiber.sliceJson, List.nil_append]

theorem echo_listed (s : Store) (hy : s.YearsSet) (h : s.rows ≠ []) :
    Echo.listed s = some (s.rows.map rowBook) := by
  rw [Echo.listed, echo_list_cons s hy h]
  exact readItems_echo _

theorem echo_listed_nil (s : Store) (h : s.rows = []) : Echo.listed s = none := by
  rw [Echo.listed, echo_list_nil s h]
  rfl

theorem fiber_listed (s : Store) (hy : s.YearsSet) :
    Fiber.listed s = some (s.rows.map rowBook) := by
  rw [Fiber.listed, fiber_list s hy]
  exact readItems_fiber _

theorem echo_update_store (key : String → Option Int) (s : Store) (id : String) (b : Book) :
    (Echo.updateBook key none s id (some b)).store
      = (s.update key b.Title b.Author b.PublishedYear id).1 := by
  simp only [Echo.updateBook]
  split_ifs <;> rfl

theorem fiber_update_store (key : String → Option Int) (s : Store) (id : String) (b : Book) :
    (Fiber.updateBook key none s id (some b)).store
      = (s.update key b.Title b.Author b.PublishedYear id).1 := by
  simp only [Fiber.updateBook]
  split_ifs <;> rfl

theorem rows_delete_listing (key : String → Option Int) (s : Store) (id : String) :
    (s.delete key id).1.rows.map rowBook
      = (s.rows.map rowBook).filter (fun b => decide (key id ≠ some b.ID)) := by
  simp only [Store.delete, List.filter_map]
  congr 1
  apply List.filter_congr
  intro r _
  by_cases h : key id = some r.id
  · simp [Row.selected, rowBook, h]
  · simp [Row.selected, rowBook, h]

theorem rows_update_listing (key : String → Option Int) (s : Store) (id : String)
    (t a : String) (y : Int) :
    (s.update key t a y id).1.rows.map rowBook
      = (s.rows.map rowBook).map
          (fun b => if key id = some b.ID then ⟨b.ID, t, a, y⟩ else b) := by
  simp only [Store.update, List.map_map]
  apply List.map_congr_left
  intro r _
  by_cases h : key id = some r.id
  · simp [Row.selected, rowBook, h]
  · simp [Row.selected, rowBook, h]

theorem scanLoop_mk_shape (rows : List Row) (acc : List Book) (sl : Slice)
    (h : scanLoop rows (.mk acc) = .ok sl) : ∃ l, sl = .mk l := by
  induction rows generalizing acc with
  | nil =>
    simp only [scanLoop] at h
    cases h
    exact ⟨acc, rfl⟩
  | cons r rs ih =>
    simp only [scanLoop] at h
    cases hr : scanRow r with
    | error e => rw [hr] at h; cases h
    | ok b =>
      rw [hr] at h
      exact ih _ h

theorem scanLoop_mk_grows (rows : List Row) (acc l : List Book)
    (h : scanLoop rows (.mk acc) = .ok (.mk l)) : acc.length ≤ l.length := by
  induction rows generalizing acc with
  | nil =>
    simp only [scanLoop] at h
    cases h
    exact le_refl _
  | cons r rs ih =>
    simp only [scanLoop] at h
    cases hr : scanRow r with
    | error e => rw [hr] at h; cases h
    | ok b =>
      rw [hr] at h
      have := ih (acc ++ [b]) h
      simp only [List.length_append, List.length_singleton] at this
      omega

theorem scanLoop_nil_cons_eq (r : Row) (rs : List Row) :
    scanLoop (r :: rs) .nil = scanLoop (r :: rs) (.mk []) := by
  simp only [scanLoop]
  cases scanRow r with
  | error e => rfl
  | ok b => rfl

theorem list_agree (dbErr : Option String) (cut : Option Nat) (s : Store) :
    (Echo.getBooks dbErr cut s).status = (Fiber.getBooks dbErr cut s).status ∧
    (Echo.getBooks dbErr cut s).store = (Fiber.getBooks dbErr cut s).store ∧
    (Echo.getBooks dbErr cut s).stmts = (Fiber.getBooks dbErr cut s).stmts ∧
    ((Echo.getBooks dbErr cut s).status ≠ 200 →
      (Echo.getBooks dbErr cut s).body = (Fiber.getBooks dbErr cut s).body) ∧
    ((Echo.getBooks dbErr cut s).status = 200 → delivered cut s.rows ≠ [] →
      ∃ l : List Book, l ≠ [] ∧
        (Echo.getBooks dbErr cut s).body = some (.arr (l.map Echo.bookJson)) ∧
        (Fiber.getBooks dbErr cut s).body = some (.arr (l.map Fiber.bookJson))) := by
  cases dbErr with
  | some e => simp [Echo.getBooks, Fiber.getBooks]
  | none =>
    cases hrows : delivered cut s.rows with
    | nil => simp [Echo.getBooks, Fiber.getBooks, Store.selectAll, hrows, scanLoop]
    | cons r rs =>
      simp only [Echo.getBooks, Fiber.getBooks, Store.selectAll, hrows,
        scanLoop_nil_cons_eq r rs]
      cases hloop : scanLoop (r :: rs) (.mk []) with
      | error e => simp
      | ok sl =>
        obtain ⟨l, rfl⟩ := scanLoop_mk_shape _ _ _ hloop
        have hl : l ≠ [] := by
          intro hl
          subst hl
          simp only [scanLoop] at hloop
          cases hr : scanRow r with
          | error e => rw [hr] at hloop; cases hloop
          | ok b =>
            rw [hr] at hloop
            have := scanLoop_mk_grows rs [b] [] hloop
            simp at this
        simp only [Echo.sliceJson, Fiber.sliceJson]
        refine ⟨by simp, by simp, by simp, ?_, ?_⟩
        · intro h
          exact absurd rfl h
        · intro _ _
          exact ⟨l, hl, rfl, rfl⟩

theorem get_agree (key : String → Option Int) (dbErr : Option String) (s : Store)
    (id : String) :
    (Echo.getBook key dbErr s id).status = (Fiber.getBook key dbErr s id).status ∧
    (Echo.getBook key dbErr s id).store = (Fiber.getBook key dbErr s id).store ∧
    (Echo.getBook key dbErr s id).stmts = (Fiber.getBook key dbErr s id).stmts ∧
    ((Echo.getBook key dbErr s id).status ≠ 200 →
      (Echo.getBook key dbErr s id).status ≠ 201 →
      (Echo.getBook key dbErr s id).body = (Fiber.getBook key dbErr s id).body) ∧
    ((Echo.getBook key dbErr s id).status = 200 ∨ (Echo.getBook key dbErr s id).status = 201 →
      ∃ b, (Echo.getBook key dbErr s id).body = some (Echo.bookJson b) ∧
        (Fiber.getBook key dbErr s id).body = some (Fiber.bookJson b)) := by
  cases dbErr with
  | some e => simp [Echo.getBook, Fiber.getBook]
  | none =>
    simp only [Echo.getBook, Fiber.getBook]
    cases s.selectById key id with
    | none => simp
    | some r =>
      simp only
      cases scanRow r with
      | error e => simp
      | ok b =>
        refine ⟨by simp, by simp, by simp, ?_, ?_⟩
        · intro h
          exact absurd rfl h
        · intro _
          exact ⟨b, rfl, rfl⟩

theorem create_agree (dbErr : Option String) (s : Store) (body : Option Book) :
    (Echo.createBook dbErr s body).status = (Fiber.createBook dbErr s body).status ∧
    (Echo.createBook dbErr s body).store = (Fiber.createBook dbErr s body).store ∧
    (Echo.createBook dbErr s body).stmts = (Fiber.createBook dbErr s body).stmts ∧
    (∀ b, body = some b → (b.Title = "" ∨ b.Author = "") →
      (Echo.createBook dbErr s body).body = some (errorJson "Title and author are required") ∧
      (Fiber.createBook dbErr s body).body = some (errorJson "Title and author required")) ∧
    ((∀ b, body = some b → b.Title ≠ "" ∧ b.Author ≠ "") →
      (Echo.createBook dbErr s body).status ≠ 200 →
      (Echo.createBook dbErr s body).status ≠ 201 →
      (Echo.createBook dbErr s body).body = (Fiber.createBook dbErr s body).body) ∧
    ((Echo.createBook dbErr s body).status = 200 ∨ (Echo.createBook dbErr s body).status = 201 →
      ∃ b, (Echo.createBook dbErr s body).body = some (Echo.bookJson b) ∧
        (Fiber.createBook dbErr s body).body = some (Fiber.bookJson b)) := by
  cases body with
  | none => simp [Echo.createBook, Fiber.createBook]
  | some b =>
    by_cases hv : b.Title = "" ∨ b.Author = ""
    · simp only [Echo.createBook, Fiber.createBook, if_pos hv]
      refine ⟨by simp, by simp, by simp, ?_, ?_, ?_⟩
      · intro _ _ _
        simp
      · intro hall
        have := hall b rfl
        rcases hv with h | h
        · exact absurd h this.1
        · exact absurd h this.2
      · intro h
        rcases h with h | h <;> simp at h
    · simp only [Echo.createBook, Fiber.createBook, if_neg hv]
      cases dbErr with
      | some e =>
        refine ⟨rfl, rfl, rfl, ?_, fun _ _ _ => rfl, ?_⟩
        · intro b' hb' hv'
          cases hb'
          exact absurd hv' hv
        · intro h
          rcases h with h | h <;> simp at h
      | none =>
        refine ⟨by simp, by simp, by simp, ?_, ?_, ?_⟩
        · intro b' hb' hv'
          cases hb'
          exact absurd hv' hv
        · intro _ _ h
          exact absurd rfl h
        · intro _
          exact ⟨_, rfl, rfl⟩

theorem update_agree (key : String → Option Int) (dbErr : Option String) (s : Store)
    (id : String) (body : Option Book) :
    (Echo.updateBook key dbErr s id body).status = (Fiber.updateBook key dbErr s id body).status ∧
    (Echo.updateBook key dbErr s id body).store = (Fiber.updateBook key dbErr s id body).store ∧
    (Echo.updateBook key dbErr s id body).stmts = (Fiber.updateBook key dbErr s id body).stmts ∧
    ((Echo.updateBook key dbErr s id body).status ≠ 200 →
      (Echo.updateBook key dbErr s id body).status ≠ 201 →
      (Echo.updateBook key dbErr s id body).body = (Fiber.updateBook key dbErr s id body).body) ∧
    ((Echo.updateBook key dbErr s id body).status = 200 ∨
        (Echo.updateBook key dbErr s id body).status = 201 →
      ∃ b, (Echo.updateBook key dbErr s id body).body = some (Echo.bookJson b) ∧
        (Fiber.updateBook key dbErr s id body).body = some (Fiber.bookJson b)) := by
  cases body with
  | none => simp [Echo.updateBook, Fiber.updateBook]
  | some b =>
    cases dbErr with
    | some e => simp [Echo.updateBook, Fiber.updateBook]
    | none =>
      simp only [Echo.updateBook, Fiber.updateBook]
      by_cases h0 : (s.update key b.Title b.Author b.PublishedYear id).2 = 0
      · simp only [if_pos h0]
        simp
      · simp only [if_neg h0]
        refine ⟨by simp, by simp, by simp, ?_, ?_⟩
        · intro h
          exact absurd rfl h
        · intro _
          exact ⟨_, rfl, rfl⟩

theorem delete_agree (key : String → Option Int) (dbErr : Option String) (s : Store)
    (id : String) :
    Echo.deleteBook key dbErr s id = Fiber.deleteBook key dbErr s id ∧
    (Echo.deleteBook key dbErr s id).status ≠ 200 ∧
    (Echo.deleteBook key dbErr s id).status ≠ 201 := by
  cases dbErr with
  | some e => simp [Echo.deleteBook, Fiber.deleteBook]
  | none =>
    simp only [Echo.deleteBook, Fiber.deleteBook]
    split_ifs <;> simp

/-! ## Lemmas on strconv -/

theorem digitVal_digitChar (d : Nat) (h : d < 10) : digitVal (digitChar d) = some d := by
  interval_cases d <;> rfl

theorem digitsOf_val (fuel n : Nat) (acc : List Char) (h : n < fuel) :
    ∃ k, ∀ a, digitsVal (digitsOf fuel n acc) a = digitsVal acc (a * 10 ^ k + n) := by
  induction fuel generalizing n acc with
  | zero => omega
  | succ fuel ih =>
    have hd := digitVal_digitChar (n % 10) (Nat.mod_lt n (by decide))
    by_cases h0 : n / 10 = 0
    · refine ⟨1, fun a => ?_⟩
      have hn : n % 10 = n := by omega
      rw [hn] at hd
      simp only [digitsOf, h0, if_true, digitsVal, hd, hn, pow_one]
    · have hlt : n / 10 < fuel := by omega
      obtain ⟨k, hk⟩ := ih (n / 10) (digitChar (n % 10) :: acc) hlt
      refine ⟨k + 1, fun a => ?_⟩
      simp only [digitsOf, h0, if_false, hk, digitsVal, hd]
      congr 1
      have := Nat.div_add_mod n 10
      rw [pow_succ]
      nlinarith [this]

theorem digitsOf_head (fuel n : Nat) (acc : List Char) (h : n < fuel) :
    ∃ d rest, d < 10 ∧ digitsOf fuel n acc = digitChar d :: rest := by
  induction fuel generalizing n acc with
  | zero => omega
  | succ fuel ih =>
    by_cases h0 : n / 10 = 0
    · exact ⟨n % 10, acc, Nat.mod_lt n (by decide), by simp [digitsOf, h0]⟩
    · have hlt : n / 10 < fuel := by omega
      obtain ⟨d, rest, hd, hr⟩ := ih (n / 10) (digitChar (n % 10) :: acc) hlt
      exact ⟨d, rest, hd, by simp [digitsOf, h0, hr]⟩

theorem Atoi_digits (d : Nat) (hd : d < 10) (rest : List Char) :
    Atoi ⟨digitChar d :: rest⟩ =
      match digitsVal (digitChar d :: rest) 0 with
      | none => (0, true)
      | some n => if (n : Int) > maxInt then (maxInt, true)
          else if (n : Int) < minInt then (minInt, true) else ((n : Int), false) := by
  interval_cases d <;> rfl

theorem Atoi_minus (c : Char) (rest : List Char) :
    Atoi ⟨'-' :: c :: rest⟩ =
      match digitsVal (c :: rest) 0 with
      | none => (0, true)
      | some n => if -(n : Int) > maxInt then (maxInt, true)
          else if -(n : Int) < minInt then (minInt, true) else (-(n : Int), false) := by
  rfl

/-- Atoi reads back what Itoa writes, for every Go `int`. -/
theorem Atoi_Itoa (n : Int) (hlo : minInt ≤ n) (hhi : n ≤ maxInt) :
    Atoi (Itoa n) = (n, false) := by
  obtain ⟨d, rest, hd, hds⟩ := digitsOf_head (n.natAbs + 1) n.natAbs [] (Nat.lt_succ_self _)
  obtain ⟨k, hk⟩ := digitsOf_val (n.natAbs + 1) n.natAbs [] (Nat.lt_succ_self _)
  have hval : digitsVal (digitChar d :: rest) 0 = some n.natAbs := by
    rw [← hds, hk 0]
    simp [digitsVal]
  simp only [maxInt, minInt] at hlo hhi
  by_cases hneg : n < 0
  · have habs : -(n.natAbs : Int) = n := by omega
    simp only [Itoa, hneg, if_true, hds, Atoi_minus, hval, habs, maxInt, minInt]
    rw [if_neg (by omega), if_neg (by omega)]
  · have habs : (n.natAbs : Int) = n := by omega
    simp only [Itoa, hneg, if_false, hds, Atoi_digits d hd rest, hval, habs, maxInt, minInt]
    rw [if_neg (by omega), if_neg (by omega)]

/-- In every reachable store ids strictly increase along the table and none is
above the counter. Fiber answers List with the array of the rows, each once
and in table order; Echo does so whenever the table has a row, and answers
`null` when it has none. A Create puts its Book, under an id above all of
them, behind the listed ones; a Delete drops the Books of the deleted id and
an Update rewrites them where they stand, the others keeping their places. -/
theorem listing_of_reachable (key : String → Option Int) (s : Store)
    (h : Reachable key s) :
    s.Inv ∧
    ((Fiber.getBooks none none s).status = 200 ∧
      (Fiber.getBooks none none s).body
        = some (.arr ((s.rows.map rowBook).map Fiber.bookJson)) ∧
      Fiber.listed s = some (s.rows.map rowBook)) ∧
    ((Echo.getBooks none none s).status = 200 ∧
      (s.rows ≠ [] →
        (Echo.getBooks none none s).body
          = some (.arr ((s.rows.map rowBook).map Echo.bookJson)) ∧
        Echo.listed s = some (s.rows.map rowBook)) ∧
      (s.rows = [] →
        (Echo.getBooks none none s).body = some Json.null ∧ Echo.listed s = none)) ∧
    (s.rows.map rowBook).Pairwise (fun a b => a.ID < b.ID) ∧
    (∀ b : Book, b.Title ≠ "" → b.Author ≠ "" →
      (∀ x ∈ s.rows.map rowBook, x.ID < s.nextRowid) ∧
      Echo.listed (Echo.createBook none s (some b)).store
        = some (s.rows.map rowBook ++ [⟨s.nextRowid, b.Title, b.Author, b.PublishedYear⟩]) ∧
      Fiber.listed (Fiber.createBook none s (some b)).store
        = some (s.rows.map rowBook ++ [⟨s.nextRowid, b.Title, b.Author, b.PublishedYear⟩])) ∧
    (∀ id : String,
      Fiber.listed (Fiber.deleteBook key none s id).store
        = some ((s.rows.map rowBook).filter (fun b => decide (key id ≠ some b.ID)))) ∧
    (∀ (id : String) (b : Book),
      Fiber.listed (Fiber.updateBook key none s id (some b)).store
        = some ((s.rows.map rowBook).map (fun x =>
            if key id = some x.ID then ⟨x.ID, b.Title, b.Author, b.PublishedYear⟩ else x))) := by
  have hinv := inv_reachable key s h
  obtain ⟨hwf, hseq, hy⟩ := hinv
  refine ⟨⟨hwf, hseq, hy⟩, ⟨?_, ?_, fiber_listed s hy⟩, ⟨?_, ?_, ?_⟩, ?_, ?_, ?_, ?_⟩
  · rw [fiber_list s hy]
  · rw [fiber_list s hy]
  · by_cases hr : s.rows = []
    · rw [echo_list_nil s hr]
    · rw [echo_list_cons s hy hr]
  · intro hr
    refine ⟨?_, echo_listed s hy hr⟩
    rw [echo_list_cons s hy hr]
  · intro hr
    refine ⟨?_, echo_listed_nil s hr⟩
    rw [echo_list_nil s hr]
  · rw [List.pairwise_map]
    exact hwf
  · intro b ht ha
    have hi := inv_insert s b.Title b.Author b.PublishedYear ⟨hwf, hseq, hy⟩
    have hne : (s.insert b.Title b.Author b.PublishedYear).1.rows ≠ [] := by
      simp [Store.insert]
    refine ⟨?_, ?_, ?_⟩
    · intro x hx
      obtain ⟨r, hr, rfl⟩ := List.mem_map.mp hx
      exact nextRowid_gt s r hr
    · rw [echo_create_ok s b ht ha]
      show Echo.listed (s.insert b.Title b.Author b.PublishedYear).1 = _
      rw [echo_listed _ hi.2.2 hne]
      simp [Store.insert, rowBook]
    · rw [fiber_create_ok s b ht ha]
      show Fiber.listed (s.insert b.Title b.Author b.PublishedYear).1 = _
      rw [fiber_listed _ hi.2.2]
      simp [Store.insert, rowBook]
  · intro id
    have hd := inv_delete key s id ⟨hwf, hseq, hy⟩
    rw [fiber_delete_store, fiber_listed _ hd.2.2, rows_delete_listing]
  · intro id b
    have hu := inv_update key s b.Title b.Author b.PublishedYear id ⟨hwf, hseq, hy⟩
    rw [fiber_update_store, fiber_listed _ hu.2.2, rows_update_listing]

theorem reachable_shelf : Reachable decimalKey shelf := by
  have h1 : Reachable decimalKey dune :=
    Reachable.echo Store.empty none none (.create (some ⟨0, "Dune", "Herbert", 1965⟩))
      Reachable.init
  have h2 := Reachable.fiber dune none none (.create (some ⟨0, "Emma", "Austen", 0⟩)) h1
  have h3 := Reachable.echo _ none none (.create (some ⟨0, "Beloved", "Morrison", 1987⟩)) h2
  have h4 := Reachable.fiber _ none none (.create (some ⟨0, "Ulysses", "Joyce", 1922⟩)) h3
  have h5 := Reachable.echo _ none none (.delete "3") h4
  have e : (Echo.handle decimalKey none none
      (Fiber.handle decimalKey none none
        (Echo.handle decimalKey none none
          (Fiber.handle decimalKey none none dune
            (.create (some ⟨0, "Emma", "Austen", 0⟩))).store
          (.create (some ⟨0, "Beloved", "Morrison", 1987⟩))).store
        (.create (some ⟨0, "Ulysses", "Joyce", 1922⟩))).store
      (.delete "3")).store = shelf := by decide
  rw [e] at h5
  exact h5

theorem handle_agree (key : String → Option Int) (dbErr : Option String) (cut : Option Nat)
    (s : Store) (req : Request) :
    ((Echo.handle key dbErr cut s req).status = (Fiber.handle key dbErr cut s req).status ∧
      (Echo.handle key dbErr cut s req).store = (Fiber.handle key dbErr cut s req).store ∧
      (Echo.handle key dbErr cut s req).stmts = (Fiber.handle key dbErr cut s req).stmts) ∧
    (∀ b, req = .create (some b) → (b.Title = "" ∨ b.Author = "") →
      (Echo.handle key dbErr cut s req).body
        = some (errorJson "Title and author are required") ∧
      (Fiber.handle key dbErr cut s req).body = some (errorJson "Title and author required")) ∧
    ((∀ b, req = .create (some b) → b.Title ≠ "" ∧ b.Author ≠ "") →
      (Echo.handle key dbErr cut s req).status ≠ 200 →
      (Echo.handle key dbErr cut s req).status ≠ 201 →
      (Echo.handle key dbErr cut s req).body = (Fiber.handle key dbErr cut s req).body) ∧
    (req ≠ .list →
      (Echo.handle key dbErr cut s req).status = 200 ∨
        (Echo.handle key dbErr cut s req).status = 201 →
      ∃ b, (Echo.handle key dbErr cut s req).body = some (Echo.bookJson b) ∧
        (Fiber.handle key dbErr cut s req).body = some (Fiber.bookJson b)) ∧
    (req = .list → (Echo.handle key dbErr cut s req).status = 200 →
      delivered cut s.rows ≠ [] →
      ∃ l : List Book, l ≠ [] ∧
        (Echo.handle key dbErr cut s req).body = some (.arr (l.map Echo.bookJson)) ∧
        (Fiber.handle key dbErr cut s req).body = some (.arr (l.map Fiber.bookJson))) := by
  refine ⟨?_, ?_, ?_, ?_, ?_⟩
  · cases req with
    | list =>
      exact ⟨(list_agree dbErr cut s).1, (list_agree dbErr cut s).2.1,
        (list_agree dbErr cut s).2.2.1⟩
    | get id =>
      exact ⟨(get_agree key dbErr s id).1, (get_agree key dbErr s id).2.1,
        (get_agree key dbErr s id).2.2.1⟩
    | create body =>
      exact ⟨(create_agree dbErr s body).1, (create_agree dbErr s body).2.1,
        (create_agree dbErr s body).2.2.1⟩
    | update id body =>
      exact ⟨(update_agree key dbErr s id body).1, (update_agree key dbErr s id body).2.1,
        (update_agree key dbErr s id body).2.2.1⟩
    | delete id =>
      have h := (delete_agree key dbErr s id).1
      simp only [Echo.handle, Fiber.handle, h]
      exact ⟨trivial, trivial, trivial⟩
  · intro b hreq hv
    subst hreq
    exact (create_agree dbErr s (some b)).2.2.2.1 b rfl hv
  · intro hall h200 h201
    cases req with
    | list => exact (list_agree dbErr cut s).2.2.2.1 h200
    | get id => exact (get_agree key dbErr s id).2.2.2.1 h200 h201
    | create body =>
      refine (create_agree dbErr s body).2.2.2.2.1 ?_ h200 h201
      intro b hb
      exact hall b (by rw [hb])
    | update id body => exact (update_agree key dbErr s id body).2.2.2.1 h200 h201
    | delete id =>
      have h := (delete_agree key dbErr s id).1
      simp only [Echo.handle, Fiber.handle, h]
  · intro hne hst
    cases req with
    | list => exact absurd rfl hne
    | get id => exact (get_agree key dbErr s id).2.2.2.2 hst
    | create body => exact (create_agree dbErr s body).2.2.2.2.2 hst
    | update id body => exact (update_agree key dbErr s id body).2.2.2.2 hst
    | delete id =>
      have h := delete_agree key dbErr s id
      rcases hst with h2 | h2
      · exact absurd h2 h.2.1
      · exact absurd h2 h.2.2
  · intro hreq h200 hrows
    subst hreq
    exact (list_agree dbErr cut s).2.2.2.2 h200 hrows

theorem bind_agree (p : Payload) (h : p.content ≠ .empty) :
    Echo.Bind p = Fiber.BodyParser p := by
  cases p with
  | mk m c =>
    cases c with
    | empty => exact absurd rfl h
    | object b => cases m <;> rfl
    | undecodable => cases m <;> rfl

/-! ## The claims -/

/-- C1: a Create whose body has an empty title or an empty author is answered
400 with an object holding an `error` member by both variants, whatever the
driver would report; no statement is sent to the engine, the store is the one
before the request, and List answers the same before and after. -/
theorem create_invalid_rejected (dbErr : Option String) (s : Store) (b : Book)
    (h : b.Title = "" ∨ b.Author = "") :
    ((Echo.createBook dbErr s (some b)).status = 400 ∧
      (∃ msg, (Echo.createBook dbErr s (some b)).body = some (.obj [("error", .str msg)])) ∧
      (Echo.createBook dbErr s (some b)).stmts = [] ∧
      (Echo.createBook dbErr s (some b)).store = s ∧
      (∀ e cut, (Echo.getBooks e cut (Echo.createBook dbErr s (some b)).store).body
          = (Echo.getBooks e cut s).body)) ∧
    ((Fiber.createBook dbErr s (some b)).status = 400 ∧
      (∃ msg, (Fiber.createBook dbErr s (some b)).body = some (.obj [("error", .str msg)])) ∧
      (Fiber.createBook dbErr s (some b)).stmts = [] ∧
      (Fiber.createBook dbErr s (some b)).store = s ∧
      (∀ e cut, (Fiber.getBooks e cut (Fiber.createBook dbErr s (some b)).store).body
          = (Fiber.getBooks e cut s).body)) := by
  have he : Echo.createBook dbErr s (some b)
      = ⟨s, 400, some (errorJson "Title and author are required"), []⟩ := by
    simp only [Echo.createBook]
    rw [if_pos h]
  have hf : Fiber.createBook dbErr s (some b)
      = ⟨s, 400, some (errorJson "Title and author required"), []⟩ := by
    simp only [Fiber.createBook]
    rw [if_pos h]
  rw [he, hf]
  exact ⟨⟨rfl, ⟨_, rfl⟩, rfl, rfl, fun _ _ => rfl⟩, ⟨rfl, ⟨_, rfl⟩, rfl, rfl, fun _ _ => rfl⟩⟩

/-- Witness of C1: a body with an empty title, sent to the store `shelf`. -/
theorem create_invalid_rejected_witness :
    ((Echo.createBook none shelf (some ⟨0, "", "Herbert", 1965⟩)).status = 400 ∧
      (∃ msg, (Echo.createBook none shelf (some ⟨0, "", "Herbert", 1965⟩)).body
          = some (.obj [("error", .str msg)])) ∧
      (Echo.createBook none shelf (some ⟨0, "", "Herbert", 1965⟩)).stmts = [] ∧
      (Echo.createBook none shelf (some ⟨0, "", "Herbert", 1965⟩)).store = shelf ∧
      (∀ e cut, (Echo.getBooks e cut
            (Echo.createBook none shelf (some ⟨0, "", "Herbert", 1965⟩)).store).body
          = (Echo.getBooks e cut shelf).body)) ∧
    ((Fiber.createBook none shelf (some ⟨0, "", "Herbert", 1965⟩)).status = 400 ∧
      (∃ msg, (Fiber.createBook none shelf (some ⟨0, "", "Herbert", 1965⟩)).body
          = some (.obj [("error", .str msg)])) ∧
      (Fiber.createBook none shelf (some ⟨0, "", "Herbert", 1965⟩)).stmts = [] ∧
      (Fiber.createBook none shelf (some ⟨0, "", "Herbert", 1965⟩)).store = shelf ∧
      (∀ e cut, (Fiber.getBooks e cut
            (Fiber.createBook none shelf (some ⟨0, "", "Herbert", 1965⟩)).store).body
          = (Fiber.getBooks e cut shelf).body)) :=
  create_invalid_rejected none shelf ⟨0, "", "Herbert", 1965⟩ (Or.inl rfl)

/-- C2: a Create whose body has a non-empty title and a non-empty author is
answered 201 by both variants with a Book under the rowid the store assigns,
a rowid above every id in the table and above the counter; a Get with any
path text that selects this rowid, sent right after, is answered 200 with a
Book of the title, author and published_year of the body; the id of the body
does not change the outcome. -/
theorem create_then_get (key : String → Option Int) (s : Store) (b : Book)
    (ht : b.Title ≠ "") (ha : b.Author ≠ "") :
    ((∀ r ∈ s.rows, r.id < s.nextRowid) ∧ s.seq < s.nextRowid) ∧
    ((Echo.createBook none s (some b)).status = 201 ∧
      (Echo.createBook none s (some b)).body.bind readBook
        = some ⟨s.nextRowid, b.Title, b.Author, b.PublishedYear⟩ ∧
      (∀ path, key path = some s.nextRowid →
        (Echo.getBook key none (Echo.createBook none s (some b)).store path).status = 200 ∧
        (Echo.getBook key none (Echo.createBook none s (some b)).store path).body.bind readBook
          = some ⟨s.nextRowid, b.Title, b.Author, b.PublishedYear⟩) ∧
      (∀ i, Echo.createBook none s (some { b with ID := i })
          = Echo.createBook none s (some b))) ∧
    ((Fiber.createBook none s (some b)).status = 201 ∧
      (Fiber.createBook none s (some b)).body.bind readBook
        = some ⟨s.nextRowid, b.Title, b.Author, b.PublishedYear⟩ ∧
      (∀ path, key path = some s.nextRowid →
        (Fiber.getBook key none (Fiber.createBook none s (some b)).store path).status = 200 ∧
        (Fiber.getBook key none (Fiber.createBook none s (some b)).store path).body.bind readBook
          = some ⟨s.nextRowid, b.Title, b.Author, b.PublishedYear⟩) ∧
      (∀ i, Fiber.createBook none s (some { b with ID := i })
          = Fiber.createBook none s (some b))) := by
  refine ⟨⟨fun r hr => nextRowid_gt s r hr, nextRowid_gt_seq s⟩, ⟨?_, ?_, ?_, ?_⟩, ⟨?_, ?_, ?_, ?_⟩⟩
  · rw [echo_create_ok s b ht ha]
  · rw [echo_create_ok s b ht ha]
    exact readBook_echo _
  · intro path hp
    rw [echo_create_ok s b ht ha]
    have hsel := selectById_insert key s b.Title b.Author b.PublishedYear path hp
    rw [echo_get_found key _ path _ b.PublishedYear hsel rfl]
    exact ⟨rfl, readBook_echo _⟩
  · intro i
    rw [echo_create_ok s b ht ha, echo_create_ok s { b with ID := i } ht ha]
  · rw [fiber_create_ok s b ht ha]
  · rw [fiber_create_ok s b ht ha]
    exact readBook_fiber _
  · intro path hp
    rw [fiber_create_ok s b ht ha]
    have hsel := selectById_insert key s b.Title b.Author b.PublishedYear path hp
    rw [fiber_get_found key _ path _ b.PublishedYear hsel rfl]
    exact ⟨rfl, readBook_fiber _⟩
  · intro i
    rw [fiber_create_ok s b ht ha, fiber_create_ok s { b with ID := i } ht ha]

/-- Witness of C2: the Book `Dune Messiah` sent to the store `shelf`, whose next
rowid is 5, and a Get with the path text `5`. -/
theorem create_then_get_witness :
    (⟨99, "Dune Messiah", "Herbert", 1969⟩ : Book).Title ≠ "" ∧
    (⟨99, "Dune Messiah", "Herbert", 1969⟩ : Book).Author ≠ "" ∧
    decimalKey "5" = some shelf.nextRowid ∧
    (Echo.createBook none shelf (some ⟨99, "Dune Messiah", "Herbert", 1969⟩)).status = 201 ∧
    (Echo.getBook decimalKey none
      (Echo.createBook none shelf (some ⟨99, "Dune Messiah", "Herbert", 1969⟩)).store
      "5").body.bind readBook = some ⟨shelf.nextRowid, "Dune Messiah", "Herbert", 1969⟩ ∧
    (Fiber.createBook none shelf (some ⟨99, "Dune Messiah", "Herbert", 1969⟩)).status = 201 ∧
    (Fiber.getBook decimalKey none
      (Fiber.createBook none shelf (some ⟨99, "Dune Messiah", "Herbert", 1969⟩)).store
      "5").body.bind readBook = some ⟨shelf.nextRowid, "Dune Messiah", "Herbert", 1969⟩ :=
  have h := create_then_get decimalKey shelf ⟨99, "Dune Messiah", "Herbert", 1969⟩
    (by decide) (by decide)
  ⟨by decide, by decide, by decide, h.2.1.1, (h.2.1.2.2.1 "5" (by decide)).2,
    h.2.2.1, (h.2.2.2.2.1 "5" (by decide)).2⟩

/-- C3: an Update whose path id selects no row of the store is answered 404 by
both variants, for every body that binds, and the store afterwards is the
store before (rows and counter). -/
theorem update_missing_not_found (key : String → Option Int) (s : Store) (id : String)
    (b : Book) (h : ∀ r ∈ s.rows, key id ≠ some r.id) :
    ((Echo.updateBook key none s id (some b)).status = 404 ∧
      (Echo.updateBook key none s id (some b)).store = s) ∧
    ((Fiber.updateBook key none s id (some b)).status = 404 ∧
      (Fiber.updateBook key none s id (some b)).store = s) := by
  have h0 : (s.rows.filter (Row.selected key id)).length = 0 := by
    rw [filter_selected_nil key id s.rows h]; rfl
  have hmap := map_update_self key id s.rows b.Title b.Author b.PublishedYear h
  refine ⟨⟨?_, ?_⟩, ⟨?_, ?_⟩⟩ <;>
    simp [Echo.updateBook, Fiber.updateBook, Store.update, h0, hmap]

/-- Witness of C3: path id `7` on the store `shelf`, whose ids are 1, 2 and 4. -/
theorem update_missing_not_found_witness :
    ((Echo.updateBook decimalKey none shelf "7" (some ⟨0, "Emma", "Austen", 1815⟩)).status = 404 ∧
      (Echo.updateBook decimalKey none shelf "7" (some ⟨0, "Emma", "Austen", 1815⟩)).store
        = shelf) ∧
    ((Fiber.updateBook decimalKey none shelf "7" (some ⟨0, "Emma", "Austen", 1815⟩)).status = 404 ∧
      (Fiber.updateBook decimalKey none shelf "7" (some ⟨0, "Emma", "Austen", 1815⟩)).store
        = shelf) :=
  update_missing_not_found decimalKey shelf "7" ⟨0, "Emma", "Austen", 1815⟩ (by decide)

/-- C4: on a store whose ids are distinct, a Delete whose path id selects the
rowid n of a row is answered 204 without body by both variants; the table
afterwards is the table before without the rows of id n, in the same order,
which is one row less; the counter is kept; a Get with any path text that
selects n is then answered 404. -/
theorem delete_existing (key : String → Option Int) (s : Store) (id : String) (n : Int)
    (hwf : s.WF) (hk : key id = some n) (hex : ∃ r ∈ s.rows, r.id = n) :
    ((Echo.deleteBook key none s id).status = 204 ∧
      (Echo.deleteBook key none s id).body = none ∧
      (Echo.deleteBook key none s id).store.rows
        = s.rows.filter (fun r => decide (r.id ≠ n)) ∧
      (Echo.deleteBook key none s id).store.rows.length + 1 = s.rows.length ∧
      (Echo.deleteBook key none s id).store.seq = s.seq ∧
      (∀ path, key path = some n →
        (Echo.getBook key none (Echo.deleteBook key none s id).store path).status = 404)) ∧
    ((Fiber.deleteBook key none s id).status = 204 ∧
      (Fiber.deleteBook key none s id).body = none ∧
      (Fiber.deleteBook key none s id).store.rows
        = s.rows.filter (fun r => decide (r.id ≠ n)) ∧
      (Fiber.deleteBook key none s id).store.rows.length + 1 = s.rows.length ∧
      (Fiber.deleteBook key none s id).store.seq = s.seq ∧
      (∀ path, key path = some n →
        (Fiber.getBook key none (Fiber.deleteBook key none s id).store path).status = 404)) := by
  obtain ⟨r, hr, hrn⟩ := hex
  have hpos : (s.rows.filter (Row.selected key id)).length ≠ 0 :=
    filter_selected_pos key id s.rows r hr (by rw [hk, hrn])
  have hrows := filter_not_selected key id n hk s.rows
  have hlen := length_filter_ne_id n s.rows hwf ⟨r, hr, hrn⟩
  have hgone : ∀ path, key path = some n →
      (s.delete key id).1.selectById key path = none := fun path hp =>
    selectById_none key _ path (delete_store_unselected key s id path (by rw [hp, hk]))
  refine ⟨⟨?_, ?_, ?_, ?_, ?_, ?_⟩, ⟨?_, ?_, ?_, ?_, ?_, ?_⟩⟩
  · rw [echo_delete_hit key s id hpos]
  · rw [echo_delete_hit key s id hpos]
  · rw [echo_delete_hit key s id hpos]; exact hrows
  · rw [echo_delete_hit key s id hpos]
    show (s.rows.filter (fun r => !Row.selected key id r)).length + 1 = s.rows.length
    rw [hrows]; exact hlen
  · rw [echo_delete_hit key s id hpos]
  · intro path hp
    rw [echo_delete_store, echo_get_missing key _ path (hgone path hp)]
  · rw [fiber_delete_hit key s id hpos]
  · rw [fiber_delete_hit key s id hpos]
  · rw [fiber_delete_hit key s id hpos]; exact hrows
  · rw [fiber_delete_hit key s id hpos]
    show (s.rows.filter (fun r => !Row.selected key id r)).length + 1 = s.rows.length
    rw [hrows]; exact hlen
  · rw [fiber_delete_hit key s id hpos]
  · intro path hp
    rw [fiber_delete_store, fiber_get_missing key _ path (hgone path hp)]

/-- Witness of C4: Delete with the path text `2` on the store `shelf`. -/
theorem delete_existing_witness :
    shelf.WF ∧ decimalKey "2" = some 2 ∧ (∃ r ∈ shelf.rows, r.id = 2) ∧
    (Echo.deleteBook decimalKey none shelf "2").status = 204 ∧
    (Echo.deleteBook decimalKey none shelf "2").body = none ∧
    (Echo.deleteBook decimalKey none shelf "2").store.rows
      = shelf.rows.filter (fun r => decide (r.id ≠ 2)) ∧
    (Echo.getBook decimalKey none (Echo.deleteBook decimalKey none shelf "2").store
      "2.0").status = 404 ∧
    (Fiber.deleteBook decimalKey none shelf "2").status = 204 ∧
    (Fiber.deleteBook decimalKey none shelf "2").body = none ∧
    (Fiber.deleteBook decimalKey none shelf "2").store.rows
      = shelf.rows.filter (fun r => decide (r.id ≠ 2)) ∧
    (Fiber.getBook decimalKey none (Fiber.deleteBook decimalKey none shelf "2").store
      "2.0").status = 404 :=
  have hwf : shelf.WF := by simp [Store.WF, shelf]
  have hex : ∃ r ∈ shelf.rows, r.id = 2 := ⟨⟨2, "Emma", "Austen", some 0⟩, by decide, rfl⟩
  have h := delete_existing decimalKey shelf "2" 2 hwf (by decide) hex
  ⟨hwf, by decide, hex, h.1.1, h.1.2.1, h.1.2.2.1, h.1.2.2.2.2.2 "2.0" (by decide),
    h.2.1, h.2.2.1, h.2.2.2.1, h.2.2.2.2.2.2 "2.0" (by decide)⟩

/-- C5: a Delete whose path id selects no row is answered 404 by both variants
and the store afterwards is the store before; and in the store a Delete
answered 204 leaves behind, every Delete with a path text of the same rowid is
answered 404 and leaves that store as it is, so two repeated ones both are. -/
theorem delete_missing_not_found (key : String → Option Int) (s : Store) (id : String) :
    ((∀ r ∈ s.rows, key id ≠ some r.id) →
      ((Echo.deleteBook key none s id).status = 404 ∧
        (Echo.deleteBook key none s id).store = s) ∧
      ((Fiber.deleteBook key none s id).status = 404 ∧
        (Fiber.deleteBook key none s id).store = s)) ∧
    ((Echo.deleteBook key none s id).status = 204 →
      ∀ path, key path = key id →
        (Echo.deleteBook key none (Echo.deleteBook key none s id).store path).status = 404 ∧
        (Echo.deleteBook key none (Echo.deleteBook key none s id).store path).store
          = (Echo.deleteBook key none s id).store ∧
        (Echo.deleteBook key none
          (Echo.deleteBook key none (Echo.deleteBook key none s id).store path).store
          path).status = 404) ∧
    ((Fiber.deleteBook key none s id).status = 204 →
      ∀ path, key path = key id →
        (Fiber.deleteBook key none (Fiber.deleteBook key none s id).store path).status = 404 ∧
        (Fiber.deleteBook key none (Fiber.deleteBook key none s id).store path).store
          = (Fiber.deleteBook key none s id).store ∧
        (Fiber.deleteBook key none
          (Fiber.deleteBook key none (Fiber.deleteBook key none s id).store path).store
          path).status = 404) := by
  refine ⟨?_, ?_, ?_⟩
  · intro h
    rw [echo_delete_miss key s id h, fiber_delete_miss key s id h]
    exact ⟨⟨rfl, rfl⟩, ⟨rfl, rfl⟩⟩
  · intro _ path hp
    have hun := delete_store_unselected key s id path hp
    rw [echo_delete_store key s id]
    rw [echo_delete_miss key _ path hun]
    refine ⟨rfl, rfl, ?_⟩
    rw [echo_delete_miss key _ path hun]
  · intro _ path hp
    have hun := delete_store_unselected key s id path hp
    rw [fiber_delete_store key s id]
    rw [fiber_delete_miss key _ path hun]
    refine ⟨rfl, rfl, ?_⟩
    rw [fiber_delete_miss key _ path hun]

/-- Witness of C5: path text `3` selects no row of `shelf`; path text `2` selects
one, and the Deletes after it are answered 404. -/
theorem delete_missing_not_found_witness :
    (∀ r ∈ shelf.rows, decimalKey "3" ≠ some r.id) ∧
    (Echo.deleteBook decimalKey none shelf "3").status = 404 ∧
    (Echo.deleteBook decimalKey none shelf "3").store = shelf ∧
    (Fiber.deleteBook decimalKey none shelf "3").status = 404 ∧
    (Fiber.deleteBook decimalKey none shelf "3").store = shelf ∧
    (Echo.deleteBook decimalKey none shelf "2").status = 204 ∧
    (Echo.deleteBook decimalKey none (Echo.deleteBook decimalKey none shelf "2").store
      "2").status = 404 ∧
    (Fiber.deleteBook decimalKey none shelf "2").status = 204 ∧
    (Fiber.deleteBook decimalKey none (Fiber.deleteBook decimalKey none shelf "2").store
      "2").status = 404 :=
  have h3 : ∀ r ∈ shelf.rows, decimalKey "3" ≠ some r.id := by decide
  have ha := (delete_missing_not_found decimalKey shelf "3").1 h3
  have hb := delete_missing_not_found decimalKey shelf "2"
  ⟨h3, ha.1.1, ha.1.2, ha.2.1, ha.2.2, by decide, (hb.2.1 (by decide) "2" rfl).1,
    by decide, (hb.2.2 (by decide) "2" rfl).1⟩

/-- C6 fails on the code in the Echo variant: the empty store is reachable, and
Echo answers List on it with status 200 and the body `null`, which denotes no
sequence, where Fiber answers with the array without elements; the same
happens in the reachable store left by deleting the only Book of `dune`. On
`shelf`, reachable by four Creates and the Delete of id 3, both variants list
the three Books once each, in the order of their creation. -/
theorem list_null_on_reachable_empty :
    Reachable decimalKey Store.empty ∧
    (Echo.getBooks none none Store.empty).status = 200 ∧
    (Echo.getBooks none none Store.empty).body = some Json.null ∧
    Echo.listed Store.empty = none ∧
    Fiber.listed Store.empty = some [] ∧
    Reachable decimalKey (Echo.deleteBook decimalKey none dune "1").store ∧
    (Echo.deleteBook decimalKey none dune "1").store.rows = [] ∧
    (Echo.getBooks none none (Echo.deleteBook decimalKey none dune "1").store).body
      = some Json.null ∧
    Reachable decimalKey shelf ∧
    Echo.listed shelf = some [⟨1, "Dune", "Herbert", 1965⟩, ⟨2, "Emma", "Austen", 0⟩,
      ⟨4, "Ulysses", "Joyce", 1922⟩] ∧
    Fiber.listed shelf = some [⟨1, "Dune", "Herbert", 1965⟩, ⟨2, "Emma", "Austen", 0⟩,
      ⟨4, "Ulysses", "Joyce", 1922⟩] := by
  have h1 : Reachable decimalKey dune :=
    Reachable.echo Store.empty none none (.create (some ⟨0, "Dune", "Herbert", 1965⟩))
      Reachable.init
  have h2 : Reachable decimalKey (Echo.deleteBook decimalKey none dune "1").store :=
    Reachable.echo dune none none (.delete "1") h1
  have hs := listing_of_reachable decimalKey shelf reachable_shelf
  have hne : shelf.rows ≠ [] := by decide
  refine ⟨Reachable.init, rfl, rfl, rfl, rfl, h2, by decide, rfl, reachable_shelf, ?_, ?_⟩
  · rw [(hs.2.2.1.2.1 hne).2]
    rfl
  · rw [hs.2.1.2.2]
    rfl

/-- C7 fails on the code: the store `dune` is what a Create leaves from the empty
store and has non-empty titles and authors; an Update of its row with an empty
title and an empty author is answered 200 by both variants and leaves a row
whose title and author are empty. -/
theorem update_blanks_title_and_author :
    Store.empty.NonEmptyFields ∧
    (Echo.createBook none Store.empty (some ⟨0, "Dune", "Herbert", 1965⟩)).store = dune ∧
    (Fiber.createBook none Store.empty (some ⟨0, "Dune", "Herbert", 1965⟩)).store = dune ∧
    dune.NonEmptyFields ∧
    (Echo.updateBook decimalKey none dune "1" (some ⟨0, "", "", 0⟩)).status = 200 ∧
    (Echo.updateBook decimalKey none dune "1" (some ⟨0, "", "", 0⟩)).store.rows
      = [⟨1, "", "", some 0⟩] ∧
    ¬ (Echo.updateBook decimalKey none dune "1" (some ⟨0, "", "", 0⟩)).store.NonEmptyFields ∧
    (Fiber.updateBook decimalKey none dune "1" (some ⟨0, "", "", 0⟩)).status = 200 ∧
    ¬ (Fiber.updateBook decimalKey none dune "1" (some ⟨0, "", "", 0⟩)).store.NonEmptyFields ∧
    Reachable decimalKey
      (Echo.updateBook decimalKey none dune "1" (some ⟨0, "", "", 0⟩)).store := by
  have he : (Echo.updateBook decimalKey none dune "1" (some ⟨0, "", "", 0⟩)).store.rows
      = [⟨1, "", "", some 0⟩] := by decide
  have hf : (Fiber.updateBook decimalKey none dune "1" (some ⟨0, "", "", 0⟩)).store.rows
      = [⟨1, "", "", some 0⟩] := by decide
  refine ⟨?_, by decide, by decide, ?_, by decide, he, ?_, by decide, ?_, ?_⟩
  · intro r hr
    cases hr
  · intro r hr
    simp only [dune, List.mem_singleton] at hr
    subst hr
    exact ⟨by decide, by decide⟩
  · intro h
    have h1 := h ⟨1, "", "", some 0⟩ (by rw [he]; exact List.mem_singleton.mpr rfl)
    exact h1.1 rfl
  · intro h
    have h1 := h ⟨1, "", "", some 0⟩ (by rw [hf]; exact List.mem_singleton.mpr rfl)
    exact h1.1 rfl
  · have h1 : Reachable decimalKey dune :=
      Reachable.echo Store.empty none none (.create (some ⟨0, "Dune", "Herbert", 1965⟩))
        Reachable.init
    exact Reachable.echo dune none none (.update "1" (some ⟨0, "", "", 0⟩)) h1

/-- C8 as stated fails: the path text `1.0` selects the row of id 1 of the store
`dune`, the Update is answered 200 and rewrites that row, and the Book of the
response carries id 0, not the id 1 of the row, in both variants. -/
theorem update_path_with_fraction :
    decimalKey "1.0" = some 1 ∧ (∃ r ∈ dune.rows, r.id = 1) ∧
    ((Echo.updateBook decimalKey none dune "1.0"
        (some ⟨1, "Dune Messiah", "Herbert", 1969⟩)).status = 200 ∧
      (Echo.updateBook decimalKey none dune "1.0"
        (some ⟨1, "Dune Messiah", "Herbert", 1969⟩)).store.rows
        = [⟨1, "Dune Messiah", "Herbert", some 1969⟩] ∧
      (Echo.updateBook decimalKey none dune "1.0"
        (some ⟨1, "Dune Messiah", "Herbert", 1969⟩)).body.bind readBook
        = some ⟨0, "Dune Messiah", "Herbert", 1969⟩ ∧
      (Echo.updateBook decimalKey none dune "1.0"
        (some ⟨1, "Dune Messiah", "Herbert", 1969⟩)).body.bind readBook
        ≠ some ⟨1, "Dune Messiah", "Herbert", 1969⟩) ∧
    ((Fiber.updateBook decimalKey none dune "1.0"
        (some ⟨1, "Dune Messiah", "Herbert", 1969⟩)).status = 200 ∧
      (Fiber.updateBook decimalKey none dune "1.0"
        (some ⟨1, "Dune Messiah", "Herbert", 1969⟩)).store.rows
        = [⟨1, "Dune Messiah", "Herbert", some 1969⟩] ∧
      (Fiber.updateBook decimalKey none dune "1.0"
        (some ⟨1, "Dune Messiah", "Herbert", 1969⟩)).body.bind readBook
        = some ⟨0, "Dune Messiah", "Herbert", 1969⟩ ∧
      (Fiber.updateBook decimalKey none dune "1.0"
        (some ⟨1, "Dune Messiah", "Herbert", 1969⟩)).body.bind readBook
        ≠ some ⟨1, "Dune Messiah", "Herbert", 1969⟩) := by
  refine ⟨by decide, ⟨⟨1, "Dune", "Herbert", some 1965⟩, by decide, rfl⟩,
    ⟨by decide, by decide, by decide, by decide⟩, ⟨by decide, by decide, by decide, by decide⟩⟩

/-- C8, as amended: an Update whose path id selects the rowid n of a row is
answered 200 by both variants, for every body b that binds, with a Book of
b's title, author and published_year whose id is what strconv.Atoi returns
for the path text, its error dropped: the id n of the row when the path text
is n written in decimal as strconv.Itoa does; the id of b does not change
the outcome; afterwards the rows of id n hold b's title, author and
published_year under id n, every other row and the counter are as before. -/
theorem update_existing (key : String → Option Int) (s : Store) (id : String) (b : Book)
    (n : Int) (hk : key id = some n) (hex : ∃ r ∈ s.rows, r.id = n) :
    ((Echo.updateBook key none s id (some b)).status = 200 ∧
      (Echo.updateBook key none s id (some b)).body.bind readBook
        = some ⟨(Atoi id).1, b.Title, b.Author, b.PublishedYear⟩ ∧
      (minInt ≤ n → n ≤ maxInt → id = Itoa n →
        (Echo.updateBook key none s id (some b)).body.bind readBook
          = some ⟨n, b.Title, b.Author, b.PublishedYear⟩) ∧
      (∀ i, Echo.updateBook key none s id (some { b with ID := i })
        = Echo.updateBook key none s id (some b)) ∧
      (Echo.updateBook key none s id (some b)).store.rows
        = s.rows.map (fun r =>
            if r.id = n then ⟨n, b.Title, b.Author, some b.PublishedYear⟩ else r) ∧
      (Echo.updateBook key none s id (some b)).store.seq = s.seq) ∧
    ((Fiber.updateBook key none s id (some b)).status = 200 ∧
      (Fiber.updateBook key none s id (some b)).body.bind readBook
        = some ⟨(Atoi id).1, b.Title, b.Author, b.PublishedYear⟩ ∧
      (minInt ≤ n → n ≤ maxInt → id = Itoa n →
        (Fiber.updateBook key none s id (some b)).body.bind readBook
          = some ⟨n, b.Title, b.Author, b.PublishedYear⟩) ∧
      (∀ i, Fiber.updateBook key none s id (some { b with ID := i })
        = Fiber.updateBook key none s id (some b)) ∧
      (Fiber.updateBook key none s id (some b)).store.rows
        = s.rows.map (fun r =>
            if r.id = n then ⟨n, b.Title, b.Author, some b.PublishedYear⟩ else r) ∧
      (Fiber.updateBook key none s id (some b)).store.seq = s.seq) := by
  obtain ⟨r, hr, hrn⟩ := hex
  have hpos : (s.rows.filter (Row.selected key id)).length ≠ 0 :=
    filter_selected_pos key id s.rows r hr (by rw [hk, hrn])
  have hrows := map_update_of_key key id n hk s.rows b.Title b.Author b.PublishedYear
  refine ⟨⟨?_, ?_, ?_, ?_, ?_, ?_⟩, ⟨?_, ?_, ?_, ?_, ?_, ?_⟩⟩
  · rw [echo_update_hit key s id b hpos]
  · rw [echo_update_hit key s id b hpos]; exact readBook_echo _
  · intro hlo hhi hid
    rw [echo_update_hit key s id b hpos, hid, Atoi_Itoa n hlo hhi]; exact readBook_echo _
  · intro i
    rw [echo_update_hit key s id b hpos, echo_update_hit key s id { b with ID := i } hpos]
  · rw [echo_update_hit key s id b hpos]; exact hrows
  · rw [echo_update_hit key s id b hpos]; rfl
  · rw [fiber_update_hit key s id b hpos]
  · rw [fiber_update_hit key s id b hpos]; exact readBook_fiber _
  · intro hlo hhi hid
    rw [fiber_update_hit key s id b hpos, hid, Atoi_Itoa n hlo hhi]; exact readBook_fiber _
  · intro i
    rw [fiber_update_hit key s id b hpos, fiber_update_hit key s id { b with ID := i } hpos]
  · rw [fiber_update_hit key s id b hpos]; exact hrows
  · rw [fiber_update_hit key s id b hpos]; rfl

/-- Witness of C8: Update with the path text `2` on the store `shelf`. -/
theorem update_existing_witness :
    decimalKey "2" = some 2 ∧ (∃ r ∈ shelf.rows, r.id = 2) ∧
    (Echo.updateBook decimalKey none shelf "2" (some ⟨9, "Persuasion", "Austen", 1817⟩)).status
      = 200 ∧
    (Echo.updateBook decimalKey none shelf "2"
      (some ⟨9, "Persuasion", "Austen", 1817⟩)).body.bind readBook
      = some ⟨2, "Persuasion", "Austen", 1817⟩ ∧
    (Fiber.updateBook decimalKey none shelf "2" (some ⟨9, "Persuasion", "Austen", 1817⟩)).status
      = 200 ∧
    (Fiber.updateBook decimalKey none shelf "2"
      (some ⟨9, "Persuasion", "Austen", 1817⟩)).body.bind readBook
      = some ⟨2, "Persuasion", "Austen", 1817⟩ :=
  have hex : ∃ r ∈ shelf.rows, r.id = 2 := ⟨⟨2, "Emma", "Austen", some 0⟩, by decide, rfl⟩
  have h := update_existing decimalKey shelf "2" ⟨9, "Persuasion", "Austen", 1817⟩ 2
    (by decide) hex
  ⟨by decide, hex, h.1.1, h.1.2.2.1 (by decide) (by decide) (by decide),
    h.2.1, h.2.2.2.1 (by decide) (by decide) (by decide)⟩

/-- C9: on the empty store the Echo handler answers List with status 200 and
the JSON value `null`, which is not the array without elements; the Fiber
handler answers 200 and the array without elements. -/
theorem list_empty_store :
    (Echo.getBooks none none Store.empty).status = 200 ∧
    (Echo.getBooks none none Store.empty).body = some Json.null ∧
    (Echo.getBooks none none Store.empty).body ≠ some (Json.arr []) ∧
    (Fiber.getBooks none none Store.empty).status = 200 ∧
    (Fiber.getBooks none none Store.empty).body = some (Json.arr []) := by
  refine ⟨rfl, rfl, ?_, rfl, rfl⟩
  intro h
  have h2 : Json.null = Json.arr [] := Option.some.inj h
  cases h2

/-- C10 as stated fails: an Update without a body is bound to the zero Book by
Echo, which answers 200 and blanks the row, and is rejected by Fiber, which
answers 400 and leaves the store; the two variants also answer a Create
without title with different messages, and a Get of a Book whose
published_year is 0 with different bodies. -/
theorem variants_differ :
    ((Echo.serve decimalKey none none dune (.put "1" ⟨.unhandled, .empty⟩)).status = 200 ∧
      (Fiber.serve decimalKey none none dune (.put "1" ⟨.unhandled, .empty⟩)).status = 400 ∧
      (Echo.serve decimalKey none none dune (.put "1" ⟨.unhandled, .empty⟩)).store.rows
        = [⟨1, "", "", some 0⟩] ∧
      (Fiber.serve decimalKey none none dune (.put "1" ⟨.unhandled, .empty⟩)).store = dune) ∧
    (Echo.serve decimalKey none none dune
        (.post ⟨.json, .object ⟨0, "", "Herbert", 1965⟩⟩)).body
      ≠ (Fiber.serve decimalKey none none dune
        (.post ⟨.json, .object ⟨0, "", "Herbert", 1965⟩⟩)).body ∧
    (Echo.serve decimalKey none none shelf (.getBook "2")).body
      ≠ (Fiber.serve decimalKey none none shelf (.getBook "2")).body := by
  refine ⟨⟨by decide, by decide, by decide, by decide⟩, ?_, ?_⟩
  · intro h
    have h2 : some (errorJson "Title and author are required")
        = some (errorJson "Title and author required") := h
    simp [errorJson] at h2
  · intro h
    have h2 : some (Echo.bookJson ⟨2, "Emma", "Austen", 0⟩)
        = some (Fiber.bookJson ⟨2, "Emma", "Austen", 0⟩) := h
    simp [Echo.bookJson, Fiber.bookJson] at h2

/-- C10, as amended: for every store, whatever the driver reports, and every
HTTP request to the five book routes that both frameworks hand to their handler
alike (the same route, path parameter and bound Book, or both reject the
body; of the bodies modelled, every one that is not empty), the two variants
answer with the same status, leave the same store and send the same
statements. A Create with an empty title or author gets the message
`Title and author are required` from Echo and `Title and author required`
from Fiber; every other answer that is not 200 or 201 has the same body in
both. An answer 200 or 201 to Get, Create or Update carries one Book, in each
variant's encoding, and an answer 200 to List for which the result set
delivered a row carries one sequence of Books, in each variant's encoding.
The two encodings of a Book read back as that Book and are equal when its
published_year is not 0. -/
theorem variants_agree (key : String → Option Int) (dbErr : Option String)
    (cut : Option Nat) (s : Store) (r : HttpRequest)
    (hroute : Echo.route r = Fiber.route r) :
    ((Echo.serve key dbErr cut s r).status = (Fiber.serve key dbErr cut s r).status ∧
      (Echo.serve key dbErr cut s r).store = (Fiber.serve key dbErr cut s r).store ∧
      (Echo.serve key dbErr cut s r).stmts = (Fiber.serve key dbErr cut s r).stmts) ∧
    (∀ b, Echo.route r = .create (some b) → (b.Title = "" ∨ b.Author = "") →
      (Echo.serve key dbErr cut s r).body
        = some (errorJson "Title and author are required") ∧
      (Fiber.serve key dbErr cut s r).body = some (errorJson "Title and author required")) ∧
    ((∀ b, Echo.route r = .create (some b) → b.Title ≠ "" ∧ b.Author ≠ "") →
      (Echo.serve key dbErr cut s r).status ≠ 200 →
      (Echo.serve key dbErr cut s r).status ≠ 201 →
      (Echo.serve key dbErr cut s r).body = (Fiber.serve key dbErr cut s r).body) ∧
    (Echo.route r ≠ .list →
      (Echo.serve key dbErr cut s r).status = 200 ∨
        (Echo.serve key dbErr cut s r).status = 201 →
      ∃ b, (Echo.serve key dbErr cut s r).body = some (Echo.bookJson b) ∧
        (Fiber.serve key dbErr cut s r).body = some (Fiber.bookJson b)) ∧
    (Echo.route r = .list → (Echo.serve key dbErr cut s r).status = 200 →
      delivered cut s.rows ≠ [] →
      ∃ l : List Book, l ≠ [] ∧
        (Echo.serve key dbErr cut s r).body = some (.arr (l.map Echo.bookJson)) ∧
        (Fiber.serve key dbErr cut s r).body = some (.arr (l.map Fiber.bookJson))) ∧
    (∀ b, readBook (Echo.bookJson b) = some b ∧ readBook (Fiber.bookJson b) = some b ∧
      (b.PublishedYear ≠ 0 → Echo.bookJson b = Fiber.bookJson b)) ∧
    (∀ p : Payload, p.content ≠ .empty → Echo.Bind p = Fiber.BodyParser p) := by
  have h := handle_agree key dbErr cut s (Echo.route r)
  simp only [Echo.serve, Fiber.serve, ← hroute]
  exact ⟨h.1, h.2.1, h.2.2.1, h.2.2.2.1, h.2.2.2.2,
    fun b => ⟨readBook_echo b, readBook_fiber b, bookJson_eq_of_year_ne_zero b⟩,
    bind_agree⟩

/-- Witness of C10: an Update of row 2 of `shelf` with a JSON body, and a List
of `shelf`. -/
theorem variants_agree_witness :
    Echo.route (.put "2" ⟨.json, .object ⟨9, "Persuasion", "Austen", 1817⟩⟩)
      = Fiber.route (.put "2" ⟨.json, .object ⟨9, "Persuasion", "Austen", 1817⟩⟩) ∧
    ((Echo.serve decimalKey none none shelf
        (.put "2" ⟨.json, .object ⟨9, "Persuasion", "Austen", 1817⟩⟩)).status
      = (Fiber.serve decimalKey none none shelf
        (.put "2" ⟨.json, .object ⟨9, "Persuasion", "Austen", 1817⟩⟩)).status ∧
      (Echo.serve decimalKey none none shelf
        (.put "2" ⟨.json, .object ⟨9, "Persuasion", "Austen", 1817⟩⟩)).store
      = (Fiber.serve decimalKey none none shelf
        (.put "2" ⟨.json, .object ⟨9, "Persuasion", "Austen", 1817⟩⟩)).store ∧
      (Echo.serve decimalKey none none shelf
        (.put "2" ⟨.json, .object ⟨9, "Persuasion", "Austen", 1817⟩⟩)).stmts
      = (Fiber.serve decimalKey none none shelf
        (.put "2" ⟨.json, .object ⟨9, "Persuasion", "Austen", 1817⟩⟩)).stmts) ∧
    Echo.route .getBooks = Fiber.route .getBooks ∧
    (∃ l : List Book, l ≠ [] ∧
      (Echo.serve decimalKey none (some 2) shelf .getBooks).body
        = some (.arr (l.map Echo.bookJson)) ∧
      (Fiber.serve decimalKey none (some 2) shelf .getBooks).body
        = some (.arr (l.map Fiber.bookJson))) :=
  ⟨rfl,
    (variants_agree decimalKey none none shelf
      (.put "2" ⟨.json, .object ⟨9, "Persuasion", "Austen", 1817⟩⟩) rfl).1,
    rfl,
    (variants_agree decimalKey none (some 2) shelf .getBooks rfl).2.2.2.2.1 rfl rfl
      (by decide)⟩

end Bookstore
